import Mathlib

/-!
# MC34063 calculator: validation, dispatch and the three regulator models

A shallow embedding of `mc34063.go`.  The page the program drives is an explicit
`Document` value that every function takes and returns.  A `float64` is a rational
number, an infinity or a NaN.  The three models are written over any number type
that has their operations: over `Float64` their arithmetic is exact, over `Binary64`
every operation rounds its result to the nearest `float64` as the machine does.
-/

namespace MC34063

/-! ## Numbers -/

/-- A `float64`: the rational `fin q`, the infinity `inf neg` (`inf false` is +Inf,
`inf true` is -Inf) or `nan`.  The special values follow IEEE 754: a NaN operand
gives NaN and compares false, a non-zero number divided by zero is an infinity, a
number divided by an infinity is zero.  The operations of this type are exact on
the rationals; `Binary64` below rounds them.  There is one zero, which as a divisor
counts as +0, the zero that a cancelling subtraction yields. -/
inductive Float64 where
  | fin (q : ℚ)
  | inf (neg : Bool)
  | nan
  deriving DecidableEq

namespace Float64

/-- Negation. -/
def neg : Float64 → Float64
  | fin a => fin (-a)
  | inf s => inf (!s)
  | nan => nan

/-- Sum; infinities of opposite sign give NaN. -/
def add : Float64 → Float64 → Float64
  | fin a, fin b => fin (a + b)
  | fin _, inf t => inf t
  | inf s, fin _ => inf s
  | inf s, inf t => if s = t then inf s else nan
  | _, _ => nan

/-- Difference; infinities of equal sign give NaN. -/
def sub : Float64 → Float64 → Float64
  | fin a, fin b => fin (a - b)
  | fin _, inf t => inf (!t)
  | inf s, fin _ => inf s
  | inf s, inf t => if s = t then nan else inf s
  | _, _ => nan

/-- Product; zero times an infinity gives NaN. -/
def mul : Float64 → Float64 → Float64
  | fin a, fin b => fin (a * b)
  | fin a, inf t => if a = 0 then nan else inf (xor (decide (a < 0)) t)
  | inf s, fin b => if b = 0 then nan else inf (xor s (decide (b < 0)))
  | inf s, inf t => inf (xor s t)
  | _, _ => nan

/-- Quotient; a non-zero number over zero is an infinity with the sign of the number,
zero over zero and an infinity over an infinity are NaN, a number over an infinity
is zero. -/
def div : Float64 → Float64 → Float64
  | fin a, fin b =>
    if b = 0 then (if a = 0 then nan else inf (decide (a < 0))) else fin (a / b)
  | fin _, inf _ => fin 0
  | inf s, fin b => inf (xor s (decide (b < 0)))
  | _, _ => nan

/-- Absolute value, `math.Abs`. -/
def abs : Float64 → Float64
  | fin a => fin |a|
  | inf _ => inf false
  | nan => nan

/-- The comparison `<`; false when an operand is NaN. -/
def blt : Float64 → Float64 → Bool
  | fin a, fin b => decide (a < b)
  | fin _, inf t => !t
  | inf s, fin _ => s
  | inf s, inf t => s && !t
  | _, _ => false

/-- The comparison `<=`; false when an operand is NaN. -/
def ble : Float64 → Float64 → Bool
  | fin a, fin b => decide (a ≤ b)
  | fin _, inf t => !t
  | inf s, fin _ => s
  | inf s, inf t => s || !t
  | _, _ => false

instance : Neg Float64 := ⟨neg⟩
instance : Add Float64 := ⟨add⟩
instance : Sub Float64 := ⟨sub⟩
instance : Mul Float64 := ⟨mul⟩
instance : Div Float64 := ⟨div⟩
instance : LT Float64 := ⟨fun x y => blt x y = true⟩
instance : LE Float64 := ⟨fun x y => ble x y = true⟩
instance (x y : Float64) : Decidable (x < y) := inferInstanceAs (Decidable (blt x y = true))
instance (x y : Float64) : Decidable (x ≤ y) := inferInstanceAs (Decidable (ble x y = true))
instance : OfScientific Float64 := ⟨fun m s e => fin (OfScientific.ofScientific m s e)⟩
instance (n : ℕ) : OfNat Float64 n := ⟨fin n⟩

/-- The value is a rational number greater than zero. -/
def pos : Float64 → Prop
  | fin a => 0 < a
  | _ => False

instance : DecidablePred pos := fun x =>
  match x with
  | fin a => inferInstanceAs (Decidable (0 < a))
  | inf _ => inferInstanceAs (Decidable False)
  | nan => inferInstanceAs (Decidable False)

/-- The value is a rational number: neither an infinity nor a NaN. -/
def isFinite : Float64 → Bool
  | fin _ => true
  | _ => false

end Float64

open Float64 (fin inf nan)

/-! ## Rounding to binary64

The arithmetic of `Float64` is exact.  The arithmetic of the machine is that of
`Binary64`, whose operations are those of `Float64` followed by the rounding of the
result. -/

/-- Nearest integer to a rational, ties to the even one. -/
def roundEven (x : ℚ) : ℤ :=
  let f := ⌊x⌋
  let r := x - f
  if r < 1 / 2 then f
  else if 1 / 2 < r then f + 1
  else if f % 2 = 0 then f else f + 1

/-- The `float64` nearest to an exact value, by IEEE 754 round to nearest, ties to
even: 53 significant bits, exponents from -1022 to 1023, gradual underflow below
them and an infinity from `2^1024` on. -/
def round64 (x : ℚ) : Float64 :=
  if x = 0 then fin 0
  else
    let e := max (Int.log 2 |x|) (-1022)
    let ulp : ℚ := 2 ^ (e - 52)
    let y := (roundEven (x / ulp) : ℚ) * ulp
    if 2 ^ (1024 : ℤ) ≤ |y| then inf (decide (x < 0)) else fin y

/-- The value rounded to binary64; an infinity and a NaN are unchanged. -/
def Float64.rnd : Float64 → Float64
  | fin q => round64 q
  | x => x

/-- A `float64` with rounding arithmetic: each operation is the operation of
`Float64` followed by `Float64.rnd`, and a literal is the `float64` nearest to it. -/
structure Binary64 where
  val : Float64
  deriving DecidableEq

namespace Binary64

instance : Add Binary64 := ⟨fun a b => ⟨(a.val + b.val).rnd⟩⟩
instance : Sub Binary64 := ⟨fun a b => ⟨(a.val - b.val).rnd⟩⟩
instance : Mul Binary64 := ⟨fun a b => ⟨(a.val * b.val).rnd⟩⟩
instance : Div Binary64 := ⟨fun a b => ⟨(a.val / b.val).rnd⟩⟩
instance : OfScientific Binary64 :=
  ⟨fun m s e => ⟨(OfScientific.ofScientific m s e : Float64).rnd⟩⟩
instance (n : ℕ) : OfNat Binary64 n := ⟨⟨(OfNat.ofNat n : Float64).rnd⟩⟩

/-- The `float64` that `strconv.ParseFloat` returns for a decimal text of exact
value `q`: the nearest one. -/
def ofDecimal (q : ℚ) : Binary64 := ⟨round64 q⟩

end Binary64

/-- The value is a rational number between `lo` and `hi`. -/
def Binary64.within (a : Binary64) (lo hi : ℚ) : Prop :=
  match a.val with
  | fin q => lo ≤ q ∧ q ≤ hi
  | _ => False

/-- The function `math.Abs` of a number type. -/
class MathAbs (α : Type) where
  Abs : α → α

instance : MathAbs Float64 := ⟨Float64.abs⟩
instance : MathAbs Binary64 := ⟨fun a => ⟨Float64.abs a.val⟩⟩

/-! ## Data -/

/-- The two errors of `strconv.ParseFloat`. -/
inductive NumError where
  | ErrSyntax
  | ErrRange
  deriving DecidableEq

/-- The functions of the Go standard library that the program calls and whose code
is not part of the program.  `ParseFloat s` is `strconv.ParseFloat(s, 64)`: the
number and the error, `none` for `nil`.  `Sprintf_f p x` is
`fmt.Sprintf("%.pf", x)`. -/
structure Library where
  ParseFloat : String → Float64 × Option NumError
  Sprintf_f : ℕ → Float64 → String

/-- The part of the page that the program reads and writes, each property keyed by
the id of its element: the `value` of an input, its `style.backgroundColor`, the
`innerHTML` of an element, the `src` of an image, `disabled` of a button. -/
structure Document where
  value : String → String
  backgroundColor : String → String
  innerHTML : String → String
  src : String → String
  disabled : String → Bool

/-- The constant `RESOURCES`. -/
def RESOURCES : String := "resources/"

/-- The constant `RIPPLE`. -/
def RIPPLE {α : Type} [OfScientific α] : α := 0.1

/-- The struct `UserValues`, over the number type `α`. -/
structure UserValuesOf (α : Type) where
  vin : α
  vout : α
  iout : α
  freq : α
  res1 : α
  deriving DecidableEq

/-- The struct `Results`, over the number type `α`. -/
structure ResultsOf (α : Type) where
  lmin : α
  ct : α
  cout : α
  rsc : α
  r2 : α
  rb : α
  deriving DecidableEq

/-- The struct `UserValues`. -/
abbrev UserValues : Type := UserValuesOf Float64

/-- The struct `Results`. -/
abbrev Results : Type := ResultsOf Float64

/-- The same user values in another number type. -/
def UserValuesOf.map {α β : Type} (f : α → β) (nums : UserValuesOf α) : UserValuesOf β :=
  { vin := f nums.vin, vout := f nums.vout, iout := f nums.iout, freq := f nums.freq,
    res1 := f nums.res1 }

/-- The same results in another number type. -/
def ResultsOf.map {α β : Type} (f : α → β) (r : ResultsOf α) : ResultsOf β :=
  { lmin := f r.lmin, ct := f r.ct, cout := f r.cout, rsc := f r.rsc, r2 := f r.r2,
    rb := f r.rb }

/-- The array `fieldsNames`. -/
def fieldsNames : List String := ["vin", "vout", "iout", "freq", "res1"]

/-! ## Page access -/

/-- The function `getValueByID`. -/
def getValueByID (doc : Document) (id : String) : String :=
  doc.value id

/-- The function `setInnerHTMLByID`. -/
def setInnerHTMLByID (id html : String) (doc : Document) : Document :=
  { doc with innerHTML := fun i => if i = id then html else doc.innerHTML i }

/-- The statement `document.getElementById(id).style.backgroundColor = color`. -/
def setBackgroundColor (id color : String) (doc : Document) : Document :=
  { doc with backgroundColor := fun i => if i = id then color else doc.backgroundColor i }

/-- The statement `document.getElementById(id).src = url`. -/
def setSrc (id url : String) (doc : Document) : Document :=
  { doc with src := fun i => if i = id then url else doc.src i }

/-- The statement `document.getElementById(id).disabled = b`. -/
def setDisabled (id : String) (b : Bool) (doc : Document) : Document :=
  { doc with disabled := fun i => if i = id then b else doc.disabled i }

/-- The user's typing of `text` into the input `id`. -/
def setValue (id text : String) (doc : Document) : Document :=
  { doc with value := fun i => if i = id then text else doc.value i }

/-- The function `get_user_values`: each field is parsed and the error is dropped. -/
def get_user_values (L : Library) (doc : Document) : UserValues :=
  let vinValue := getValueByID doc "vin"
  let vin := (L.ParseFloat vinValue).1
  let voutValue := getValueByID doc "vout"
  let vout := (L.ParseFloat voutValue).1
  let ioutValue := getValueByID doc "iout"
  let iout := (L.ParseFloat ioutValue).1
  let freqValue := getValueByID doc "freq"
  let freq := (L.ParseFloat freqValue).1
  let res1Value := getValueByID doc "res1"
  let res1 := (L.ParseFloat res1Value).1
  let values : UserValues := { vin := vin, vout := vout, iout := iout, freq := freq, res1 := res1 }
  values

/-- The function `clearFieldsErrors`. -/
def clearFieldsErrors (doc : Document) : Document :=
  let doc := fieldsNames.foldl (fun d field => setBackgroundColor field "White" d) doc
  let doc := setInnerHTMLByID "results" "" doc
  let doc := setInnerHTMLByID "regulator-name" "Regulator name" doc
  setSrc "schematic" (RESOURCES ++ "splash.png") doc

/-- The function `show_results`. -/
def show_results (L : Library) (r : Results) (title schematic : String) (doc : Document) :
    Document :=
  let resultStr := "<pre>"
  let resultStr := resultStr ++ ("<u>" ++ title ++ "</u>\n")
  let resultStr := resultStr ++ ("L   = " ++ L.Sprintf_f 0 (r.lmin * 1e6) ++ " uH (min)\n")
  let resultStr := resultStr ++ ("Ct  = " ++ L.Sprintf_f 0 (r.ct * 1e12) ++ " pF\n")
  let resultStr := resultStr ++ ("Co  = " ++ L.Sprintf_f 0 (r.cout * 1e6) ++ " uF (min)\n")
  let resultStr := resultStr ++ ("Rsc = " ++ L.Sprintf_f 1 r.rsc ++ " Ω\n")
  let resultStr := resultStr ++ ("R2  = " ++ L.Sprintf_f 1 r.r2 ++ " KΩ\n")
  let resultStr :=
    if r.rb ≠ 0.0 then resultStr ++ ("Rb  = " ++ L.Sprintf_f 0 r.rb ++ " Ω\n") else resultStr
  let resultStr := resultStr ++ "</pre>"
  let doc := setInnerHTMLByID "results" resultStr doc
  let doc := setInnerHTMLByID "regulator-name" title doc
  setSrc "schematic" (RESOURCES ++ schematic) doc

/-! ## The three models -/

section Models

variable {α : Type} [Add α] [Sub α] [Mul α] [Div α] [OfScientific α] [∀ n : ℕ, OfNat α n]

/-- The `Results` that `step_down` builds. -/
def step_down_results (nums : UserValuesOf α) : ResultsOf α :=
  let ratio := (nums.vout + 0.8) / (nums.vin - 0.8 - nums.vout)
  let tontoff := 1.0 / (nums.freq * 1e3)
  let toff := tontoff / (ratio + 1)
  let ton_max := tontoff - toff
  let ipeak := nums.iout / 1e3 * 2.0
  let lmin := (nums.vin - 1 - nums.vout) / ipeak * ton_max
  let ct := ton_max * 4e-5
  let cout := (ipeak * tontoff) / (8 * RIPPLE)
  let rsc := 0.33 / ipeak
  let r2 := (nums.vout - 1.25) / 1.25 * nums.res1
  let rb : α := 0.0
  { lmin := lmin, ct := ct, cout := cout, rsc := rsc, r2 := r2, rb := rb }

end Models

/-- The function `step_down`. -/
def step_down (L : Library) (nums : UserValues) (doc : Document) : Document :=
  let results := step_down_results nums
  show_results L results "Step-Down regulator" "step_down.png" doc

section Models

variable {α : Type} [Add α] [Sub α] [Mul α] [Div α] [OfScientific α] [∀ n : ℕ, OfNat α n]

/-- The `Results` that `inverter` builds. -/
def inverter_results [MathAbs α] (nums : UserValuesOf α) : ResultsOf α :=
  let ratio := (MathAbs.Abs nums.vout + 0.8) / (nums.vin - 0.8)
  let tontoff := 1.0 / (nums.freq * 1e3)
  let toff := tontoff / (ratio + 1)
  let ton := tontoff - toff
  let ipeak := 2 * nums.iout / 1e3
  let lmin := (nums.vin - 0.8) / ipeak * ton
  let ct := ton * 4e-5
  let cout := (nums.iout / 1e3 * ton) / RIPPLE
  let rsc := 0.33 / ipeak
  let r2 := ((MathAbs.Abs nums.vout - 1.25) / 1.25) * nums.res1
  let rb : α := 0.0
  { lmin := lmin, ct := ct, cout := cout, rsc := rsc, r2 := r2, rb := rb }

end Models

/-- The function `inverter`. -/
def inverter (L : Library) (nums : UserValues) (doc : Document) : Document :=
  let results := inverter_results nums
  show_results L results "Inverter regulator" "inverter.png" doc

section Models

variable {α : Type} [Add α] [Sub α] [Mul α] [Div α] [OfScientific α] [∀ n : ℕ, OfNat α n]

/-- The `Results` that `step_up` builds. -/
def step_up_results (nums : UserValuesOf α) : ResultsOf α :=
  let ratio := (nums.vout + 0.8 - nums.vin) / (nums.vin - 1)
  let tontoff := 1.0 / (nums.freq * 1e3)
  let toff := tontoff / (ratio + 1)
  let ton_max := tontoff - toff
  let ipeak := nums.iout / 1e3 * (ratio + 1) * 2.0
  let ib := ipeak / 20 + 5e-3
  let lmin := (nums.vin - 1) / ipeak * ton_max
  let ct := ton_max * 4e-5
  let cout := (nums.iout / 1e3 * ton_max) / RIPPLE
  let rsc := 0.33 / ipeak
  let r2 := ((nums.vout - 1.25) / 1.25) * nums.res1
  let rb := ((nums.vin - 1) - ipeak) * rsc / ib
  { lmin := lmin, ct := ct, cout := cout, rsc := rsc, r2 := r2, rb := rb }

end Models

/-- The function `step_up`. -/
def step_up (L : Library) (nums : UserValues) (doc : Document) : Document :=
  let results := step_up_results nums
  show_results L results "Step-Up regulator" "step_up.png" doc

/-! ## Validation and dispatch -/

/-- The closure `showFieldError` of `calculate`. -/
def showFieldError (id : String) (doc : Document) : Document :=
  setBackgroundColor id "LightPink" doc

/-- One range check of `calculate`, `if violated { errCount++; showFieldError(id) }`,
on the pair of `errCount` and the page. -/
def checkField (violated : Bool) (id : String) (st : ℕ × Document) : ℕ × Document :=
  if violated then (st.1 + 1, showFieldError id st.2) else st

/-- The five range checks of `calculate`, from `errCount := 0` to the check of `res1`. -/
def check_limits (nums : UserValues) (doc : Document) : ℕ × Document :=
  let st : ℕ × Document := (0, doc)
  let st := checkField (nums.vin < 5 || nums.vin > 40) "vin" st
  let st := checkField ((nums.vout < -40 || nums.vout > 40) || (nums.vout > -3 && nums.vout < 3))
    "vout" st
  let st := checkField (nums.iout < 5 || nums.iout > 1000) "iout" st
  let st := checkField (nums.freq < 20 || nums.freq > 100) "freq" st
  let st := checkField (nums.res1 < 1 || nums.res1 > 50) "res1" st
  st

/-- The message of `calculate` for `errCount` fields out of limits. -/
def limits_message (errCount : ℕ) : String :=
  let plural := if errCount < 2 then " is" else "s are"
  toString errCount ++ " field" ++ plural ++ " out of limits"

/-- The function `calculate`. -/
def calculate (L : Library) (doc : Document) : Document :=
  let doc := clearFieldsErrors doc
  let nums := get_user_values L doc
  let st := check_limits nums doc
  let errCount := st.1
  let doc := st.2
  if errCount > 0 then
    setInnerHTMLByID "results" (limits_message errCount) doc
  else
    let doc := setDisabled "calculate" true doc
    if nums.vout < 0 then inverter L nums doc
    else if nums.vout < nums.vin then step_down L nums doc
    else step_up L nums doc

/-! ## Quantities of the models and of the specification -/

section Quantities

variable {α : Type} [Add α] [Sub α] [Mul α] [Div α] [OfScientific α] [∀ n : ℕ, OfNat α n]

/-- The divisors of the divisions of `step_up`, in the order of the source:
of `ratio`, `tontoff`, `toff`, `ipeak`, `ib`, `lmin`, `cout` (two), `rsc`, `r2` and
`rb`. -/
def step_up_divisors (nums : UserValuesOf α) : List α :=
  let ratio := (nums.vout + 0.8 - nums.vin) / (nums.vin - 1)
  let ipeak := nums.iout / 1e3 * (ratio + 1) * 2.0
  let ib := ipeak / 20 + 5e-3
  [nums.vin - 1, nums.freq * 1e3, ratio + 1, 1e3, 20, ipeak, 1e3, RIPPLE, ipeak, 1.25, ib]

/-- The local `tontoff` of `inverter`. -/
def inverter_tontoff (nums : UserValuesOf α) : α :=
  1.0 / (nums.freq * 1e3)

/-- The local `ton` of `inverter`. -/
def inverter_ton [MathAbs α] (nums : UserValuesOf α) : α :=
  let ratio := (MathAbs.Abs nums.vout + 0.8) / (nums.vin - 0.8)
  let tontoff := 1.0 / (nums.freq * 1e3)
  let toff := tontoff / (ratio + 1)
  tontoff - toff

/-- The local `tontoff` of `step_up`. -/
def step_up_tontoff (nums : UserValuesOf α) : α :=
  1.0 / (nums.freq * 1e3)

/-- The local `ton_max` of `step_up`. -/
def step_up_ton_max (nums : UserValuesOf α) : α :=
  let ratio := (nums.vout + 0.8 - nums.vin) / (nums.vin - 1)
  let tontoff := 1.0 / (nums.freq * 1e3)
  let toff := tontoff / (ratio + 1)
  tontoff - toff

/-- The local `ipeak` of `step_up`. -/
def step_up_ipeak (nums : UserValuesOf α) : α :=
  let ratio := (nums.vout + 0.8 - nums.vin) / (nums.vin - 1)
  nums.iout / 1e3 * (ratio + 1) * 2.0

end Quantities

/-- Every field of the `Results` is a rational number: no infinity and no NaN. -/
def ResultsOf.finite (r : Results) : Prop :=
  r.lmin.isFinite ∧ r.ct.isFinite ∧ r.cout.isFinite ∧ r.rsc.isFinite ∧ r.r2.isFinite ∧
    r.rb.isFinite

instance (r : Results) : Decidable r.finite := by
  unfold ResultsOf.finite; infer_instance

/-- Five rational numbers: user values none of which is an infinity or a NaN. -/
structure Numbers where
  vin : ℚ
  vout : ℚ
  iout : ℚ
  freq : ℚ
  res1 : ℚ
  deriving DecidableEq

/-- The `UserValues` that hold the five numbers. -/
def Numbers.toUserValues (n : Numbers) : UserValues :=
  { vin := fin n.vin, vout := fin n.vout, iout := fin n.iout, freq := fin n.freq,
    res1 := fin n.res1 }

/-- The user values of the machine when the five numbers are typed into the fields:
each is the `float64` nearest to the number. -/
def Numbers.toBinary64 (n : Numbers) : UserValuesOf Binary64 :=
  { vin := Binary64.ofDecimal n.vin, vout := Binary64.ofDecimal n.vout,
    iout := Binary64.ofDecimal n.iout, freq := Binary64.ofDecimal n.freq,
    res1 := Binary64.ofDecimal n.res1 }

/-- No field of the `UserValues` is a NaN. -/
def UserValuesOf.noNaN (nums : UserValues) : Prop :=
  nums.vin ≠ nan ∧ nums.vout ≠ nan ∧ nums.iout ≠ nan ∧ nums.freq ≠ nan ∧ nums.res1 ≠ nan

instance (nums : UserValues) : Decidable nums.noNaN := by
  unfold UserValuesOf.noNaN; infer_instance

/-- The bound table of the specification, section 4.1: every field is within its
range and `vout` is outside the open interval from -3 to 3. -/
def InLimits (nums : UserValues) : Prop :=
  (5 ≤ nums.vin ∧ nums.vin ≤ 40) ∧
  (-40 ≤ nums.vout ∧ nums.vout ≤ 40 ∧ (nums.vout ≤ -3 ∨ 3 ≤ nums.vout)) ∧
  (5 ≤ nums.iout ∧ nums.iout ≤ 1000) ∧
  (20 ≤ nums.freq ∧ nums.freq ≤ 100) ∧
  (1 ≤ nums.res1 ∧ nums.res1 ≤ 50)

instance (nums : UserValues) : Decidable (InLimits nums) := by
  unfold InLimits; infer_instance

/-! ## A concrete library

A small instance of `Library`, used to run the model on concrete pages.  It covers
plain decimal numerals and the texts of the special values; the theorems below hold
for every `Library`. -/

/-- Value of a run of decimal digits, `none` when a character is not a digit. -/
def readDigits (acc : ℕ) : List Char → Option ℕ
  | [] => some acc
  | c :: cs => if c.isDigit then readDigits (10 * acc + (c.toNat - 48)) cs else none

/-- An unsigned decimal numeral: digits, at most one point, at least one digit. -/
def readUnsigned (cs : List Char) : Option ℚ :=
  let ip := cs.takeWhile Char.isDigit
  match cs.dropWhile Char.isDigit with
  | [] => if ip.isEmpty then none else (readDigits 0 ip).map (fun n => (n : ℚ))
  | '.' :: fp =>
    if ip.isEmpty && fp.isEmpty then none
    else
      match readDigits 0 ip, readDigits 0 fp with
      | some i, some f => some ((i : ℚ) + (f : ℚ) / 10 ^ fp.length)
      | _, _ => none
  | _ => none

/-- The texts of the special values, in lower case: `nan`, and `inf` or `infinity`
with an optional sign. -/
def readSpecial (cs : List Char) : Option Float64 :=
  if cs = ['n', 'a', 'n'] then some nan
  else if cs = ['i', 'n', 'f'] ∨ cs = ['+', 'i', 'n', 'f'] ∨
      cs = ['i', 'n', 'f', 'i', 'n', 'i', 't', 'y'] ∨
      cs = ['+', 'i', 'n', 'f', 'i', 'n', 'i', 't', 'y'] then some (inf false)
  else if cs = ['-', 'i', 'n', 'f'] ∨
      cs = ['-', 'i', 'n', 'f', 'i', 'n', 'i', 't', 'y'] then some (inf true)
  else none

/-- A signed decimal numeral without exponent or the text of a special value (in
any case of the letters), as `strconv.ParseFloat` reads it: the value and no error,
or `0` and `ErrSyntax` for any other text. -/
def parseDecimal (s : String) : Float64 × Option NumError :=
  match readSpecial (s.toList.map Char.toLower) with
  | some x => (x, none)
  | none =>
    let r : Option ℚ :=
      match s.toList with
      | '-' :: cs => (readUnsigned cs).map (fun q => -q)
      | '+' :: cs => readUnsigned cs
      | cs => readUnsigned cs
    match r with
    | some q => (fin q, none)
    | none => (fin 0, some NumError.ErrSyntax)

/-- Nearest natural number to a rational that is not negative, ties to even. -/
def roundHalfEven (x : ℚ) : ℕ :=
  let f := (x.num / (x.den : ℤ)).toNat
  let r := x - (f : ℚ)
  if r < 1 / 2 then f
  else if 1 / 2 < r then f + 1
  else if f % 2 = 0 then f else f + 1

/-- The digits of `n`, padded with zeros on the left to `width` characters. -/
def zeroPad (width n : ℕ) : String :=
  let d := toString n
  String.mk (List.replicate (width - d.length) '0') ++ d

/-- Fixed-point text with `prec` decimals, as `%.precf` prints it. -/
def formatFixed (prec : ℕ) : Float64 → String
  | nan => "NaN"
  | inf false => "+Inf"
  | inf true => "-Inf"
  | fin q =>
    let n := roundHalfEven (|q| * 10 ^ prec)
    let whole := toString (n / 10 ^ prec)
    let body := if prec = 0 then whole else whole ++ "." ++ zeroPad prec (n % 10 ^ prec)
    if q < 0 then "-" ++ body else body

/-- The concrete library. -/
def decimalLibrary : Library :=
  { ParseFloat := parseDecimal, Sprintf_f := formatFixed }

/-- A page whose five fields hold the given texts and that is otherwise empty. -/
def pageOf (vin vout iout freq res1 : String) : Document :=
  { value := fun i =>
      if i = "vin" then vin else if i = "vout" then vout else if i = "iout" then iout
      else if i = "freq" then freq else if i = "res1" then res1 else ""
    backgroundColor := fun _ => ""
    innerHTML := fun _ => ""
    src := fun _ => ""
    disabled := fun _ => false }

end MC34063

namespace MC34063
open Float64 (fin inf nan)

/-! ## Arithmetic and order of `Float64` -/

namespace Float64

theorem fin_add (a b : ℚ) : fin a + fin b = fin (a + b) := rfl
theorem fin_sub (a b : ℚ) : fin a - fin b = fin (a - b) := rfl
theorem fin_mul (a b : ℚ) : fin a * fin b = fin (a * b) := rfl
theorem fin_div (a b : ℚ) :
    fin a / fin b =
      if b = 0 then (if a = 0 then nan else inf (decide (a < 0))) else fin (a / b) := rfl
theorem fin_div_of_ne (a b : ℚ) (h : b ≠ 0) : fin a / fin b = fin (a / b) := by
  rw [fin_div, if_neg h]
theorem inf_add_fin (s : Bool) (b : ℚ) : inf s + fin b = inf s := rfl
theorem neg_fin (a : ℚ) : -(fin a) = fin (-a) := rfl
theorem abs_fin (a : ℚ) : MathAbs.Abs (fin a) = fin |a| := rfl
theorem ofNat_eq (n : ℕ) : (OfNat.ofNat n : Float64) = fin (n : ℚ) := rfl
theorem ofScientific_eq (m : ℕ) (s : Bool) (e : ℕ) :
    (OfScientific.ofScientific m s e : Float64) = fin (OfScientific.ofScientific m s e) := rfl
theorem pos_fin (a : ℚ) : pos (fin a) ↔ 0 < a := Iff.rfl

theorem fin_lt_fin (a b : ℚ) : fin a < fin b ↔ a < b := by
  show blt (fin a) (fin b) = true ↔ a < b
  simp [blt]

theorem fin_le_fin (a b : ℚ) : fin a ≤ fin b ↔ a ≤ b := by
  show ble (fin a) (fin b) = true ↔ a ≤ b
  simp [ble]

theorem fin_lt_inf (a : ℚ) (s : Bool) : fin a < inf s ↔ s = false := by
  show blt (fin a) (inf s) = true ↔ s = false
  cases s <;> simp [blt]

theorem inf_lt_fin (s : Bool) (b : ℚ) : inf s < fin b ↔ s = true := by
  show blt (inf s) (fin b) = true ↔ s = true
  cases s <;> simp [blt]

theorem fin_le_inf (a : ℚ) (s : Bool) : fin a ≤ inf s ↔ s = false := by
  show ble (fin a) (inf s) = true ↔ s = false
  cases s <;> simp [ble]

theorem inf_le_fin (s : Bool) (b : ℚ) : inf s ≤ fin b ↔ s = true := by
  show ble (inf s) (fin b) = true ↔ s = true
  cases s <;> simp [ble]

theorem not_nan_lt (x : Float64) : ¬ nan < x := by
  show ¬ blt nan x = true
  simp [blt]

theorem not_lt_nan (x : Float64) : ¬ x < nan := by
  show ¬ blt x nan = true
  cases x <;> simp [blt]

theorem not_nan_le (x : Float64) : ¬ nan ≤ x := by
  show ¬ ble nan x = true
  simp [ble]

theorem not_le_nan (x : Float64) : ¬ x ≤ nan := by
  show ¬ ble x nan = true
  cases x <;> simp [ble]

theorem not_lt_of_le {x y : Float64} (h : x ≤ y) : ¬ y < x := by
  revert h
  show ble x y = true → ¬ blt y x = true
  cases x <;> cases y <;> simp [ble, blt]
  rename_i s t
  cases s <;> cases t <;> simp

theorem le_of_not_lt {x y : Float64} (hx : x ≠ nan) (hy : y ≠ nan) (h : ¬ x < y) : y ≤ x := by
  revert h
  show ¬ blt x y = true → ble y x = true
  cases x <;> cases y <;> simp [ble, blt] at hx hy ⊢
  rename_i s t
  cases s <;> cases t <;> simp

end Float64

/-! ## Validation -/

theorem checkField_fst (b : Bool) (id : String) (st : ℕ × Document) :
    (checkField b id st).1 = st.1 + (if b then 1 else 0) := by
  cases b <;> simp [checkField]

theorem checkField_snd_bg (b : Bool) (id : String) (st : ℕ × Document) (i : String) :
    (checkField b id st).2.backgroundColor i =
      if b = true ∧ i = id then "LightPink" else st.2.backgroundColor i := by
  cases b <;> simp [checkField, showFieldError, setBackgroundColor]

theorem check_limits_fst_eq_zero_iff (nums : UserValues) (doc : Document) :
    (check_limits nums doc).1 = 0 ↔
      ¬ (nums.vin < 5 ∨ nums.vin > 40) ∧
      ¬ ((nums.vout < -40 ∨ nums.vout > 40) ∨ (nums.vout > -3 ∧ nums.vout < 3)) ∧
      ¬ (nums.iout < 5 ∨ nums.iout > 1000) ∧
      ¬ (nums.freq < 20 ∨ nums.freq > 100) ∧
      ¬ (nums.res1 < 1 ∨ nums.res1 > 50) := by
  simp only [check_limits, checkField_fst, Bool.or_eq_true, Bool.and_eq_true,
    decide_eq_true_eq, zero_add]
  by_cases h1 : nums.vin < 5 ∨ nums.vin > 40 <;>
  by_cases h2 : (nums.vout < -40 ∨ nums.vout > 40) ∨ (nums.vout > -3 ∧ nums.vout < 3) <;>
  by_cases h3 : nums.iout < 5 ∨ nums.iout > 1000 <;>
  by_cases h4 : nums.freq < 20 ∨ nums.freq > 100 <;>
  by_cases h5 : nums.res1 < 1 ∨ nums.res1 > 50 <;>
  simp [h1, h2, h3, h4, h5]

theorem clearFieldsErrors_bg (doc : Document) (i : String) :
    (clearFieldsErrors doc).backgroundColor i =
      if i ∈ fieldsNames then "White" else doc.backgroundColor i := by
  simp only [clearFieldsErrors, fieldsNames, List.foldl, setBackgroundColor, setInnerHTMLByID,
    setSrc, List.mem_cons, List.mem_singleton, List.not_mem_nil, or_false]
  by_cases h1 : i = "vin" <;> by_cases h2 : i = "vout" <;> by_cases h3 : i = "iout" <;>
    by_cases h4 : i = "freq" <;> by_cases h5 : i = "res1" <;> simp [h1, h2, h3, h4, h5]

theorem clearFieldsErrors_value (doc : Document) :
    (clearFieldsErrors doc).value = doc.value := by
  simp [clearFieldsErrors, fieldsNames, List.foldl, setBackgroundColor, setInnerHTMLByID, setSrc]

theorem get_user_values_clear (L : Library) (doc : Document) :
    get_user_values L (clearFieldsErrors doc) = get_user_values L doc := by
  simp [get_user_values, getValueByID, clearFieldsErrors_value]

theorem check_limits_bg (nums : UserValues) (doc : Document) (i : String) :
    (check_limits nums doc).2.backgroundColor i =
      if (i = "vin" ∧ (nums.vin < 5 ∨ nums.vin > 40)) ∨
         (i = "vout" ∧ ((nums.vout < -40 ∨ nums.vout > 40) ∨ (nums.vout > -3 ∧ nums.vout < 3))) ∨
         (i = "iout" ∧ (nums.iout < 5 ∨ nums.iout > 1000)) ∨
         (i = "freq" ∧ (nums.freq < 20 ∨ nums.freq > 100)) ∨
         (i = "res1" ∧ (nums.res1 < 1 ∨ nums.res1 > 50))
      then "LightPink" else doc.backgroundColor i := by
  simp only [check_limits, checkField_snd_bg, Bool.or_eq_true, Bool.and_eq_true,
    decide_eq_true_eq]
  by_cases h1 : i = "vin" <;> by_cases h2 : i = "vout" <;> by_cases h3 : i = "iout" <;>
    by_cases h4 : i = "freq" <;> by_cases h5 : i = "res1" <;>
    simp [h1, h2, h3, h4, h5]

theorem calculate_bg (L : Library) (doc : Document) :
    (calculate L doc).backgroundColor =
      (check_limits (get_user_values L doc) (clearFieldsErrors doc)).2.backgroundColor := by
  simp only [calculate, get_user_values_clear]
  split_ifs <;>
    simp [setInnerHTMLByID, inverter, step_down, step_up, show_results, setSrc, setDisabled]

theorem check_limits_fst (nums : UserValues) (doc : Document) :
    (check_limits nums doc).1 =
      (if nums.vin < 5 ∨ nums.vin > 40 then 1 else 0) +
      (if (nums.vout < -40 ∨ nums.vout > 40) ∨ (nums.vout > -3 ∧ nums.vout < 3) then 1 else 0) +
      (if nums.iout < 5 ∨ nums.iout > 1000 then 1 else 0) +
      (if nums.freq < 20 ∨ nums.freq > 100 then 1 else 0) +
      (if nums.res1 < 1 ∨ nums.res1 > 50 then 1 else 0) := by
  simp only [check_limits, checkField_fst, Bool.or_eq_true, Bool.and_eq_true,
    decide_eq_true_eq, zero_add]

/-- C1: for every five numbers and every page, the fields that `calculate` marks
(pink background) are exactly the fields outside the bound table, each decided from
its own value alone; `vout = 3` and `vout = -3` are accepted; the other fields are
left white; and `errCount` is the number of marked fields. -/
theorem C1_flagged_fields_are_the_violations (nums : UserValues) (L : Library)
    (doc : Document) :
    ((check_limits nums (clearFieldsErrors doc)).2.backgroundColor "vin" = "LightPink" ↔
        nums.vin < 5 ∨ nums.vin > 40) ∧
    ((check_limits nums (clearFieldsErrors doc)).2.backgroundColor "vout" = "LightPink" ↔
        nums.vout < -40 ∨ nums.vout > 40 ∨ (-3 < nums.vout ∧ nums.vout < 3)) ∧
    ((check_limits nums (clearFieldsErrors doc)).2.backgroundColor "iout" = "LightPink" ↔
        nums.iout < 5 ∨ nums.iout > 1000) ∧
    ((check_limits nums (clearFieldsErrors doc)).2.backgroundColor "freq" = "LightPink" ↔
        nums.freq < 20 ∨ nums.freq > 100) ∧
    ((check_limits nums (clearFieldsErrors doc)).2.backgroundColor "res1" = "LightPink" ↔
        nums.res1 < 1 ∨ nums.res1 > 50) ∧
    (nums.vout = 3 ∨ nums.vout = -3 →
        (check_limits nums (clearFieldsErrors doc)).2.backgroundColor "vout" = "White") ∧
    (∀ f ∈ fieldsNames,
        (check_limits nums (clearFieldsErrors doc)).2.backgroundColor f = "LightPink" ∨
        (check_limits nums (clearFieldsErrors doc)).2.backgroundColor f = "White") ∧
    (check_limits nums (clearFieldsErrors doc)).1 =
        (fieldsNames.filter (fun f =>
          (check_limits nums (clearFieldsErrors doc)).2.backgroundColor f = "LightPink")).length ∧
    (calculate L doc).backgroundColor =
        (check_limits (get_user_values L doc) (clearFieldsErrors doc)).2.backgroundColor := by
  refine ⟨?_, ?_, ?_, ?_, ?_, ?_, ?_, ?_, calculate_bg L doc⟩
  · by_cases h : nums.vin < 5 ∨ nums.vin > 40 <;>
      simp [check_limits_bg, clearFieldsErrors_bg, fieldsNames, h]
  · rw [← or_assoc]
    by_cases h : (nums.vout < -40 ∨ nums.vout > 40) ∨ (-3 < nums.vout ∧ nums.vout < 3) <;>
      simp [check_limits_bg, clearFieldsErrors_bg, fieldsNames, h]
  · by_cases h : nums.iout < 5 ∨ nums.iout > 1000 <;>
      simp [check_limits_bg, clearFieldsErrors_bg, fieldsNames, h]
  · by_cases h : nums.freq < 20 ∨ nums.freq > 100 <;>
      simp [check_limits_bg, clearFieldsErrors_bg, fieldsNames, h]
  · by_cases h : nums.res1 < 1 ∨ nums.res1 > 50 <;>
      simp [check_limits_bg, clearFieldsErrors_bg, fieldsNames, h]
  · rintro (h | h) <;> simp [check_limits_bg, clearFieldsErrors_bg, fieldsNames, h] <;> decide
  · intro f hf
    simp only [check_limits_bg, clearFieldsErrors_bg, if_pos hf]
    split_ifs <;> simp
  · rw [check_limits_fst]
    simp only [check_limits_bg, clearFieldsErrors_bg, fieldsNames]
    by_cases h1 : nums.vin < 5 ∨ nums.vin > 40 <;>
    by_cases h2 : (nums.vout < -40 ∨ nums.vout > 40) ∨ (nums.vout > -3 ∧ nums.vout < 3) <;>
    by_cases h3 : nums.iout < 5 ∨ nums.iout > 1000 <;>
    by_cases h4 : nums.freq < 20 ∨ nums.freq > 100 <;>
    by_cases h5 : nums.res1 < 1 ∨ nums.res1 > 50 <;>
    simp [h1, h2, h3, h4, h5, List.filter]

end MC34063

namespace MC34063
open Float64 (fin inf nan)

/-! ## Dispatch -/

theorem calculate_of_valid (L : Library) (doc : Document)
    (hv : (check_limits (get_user_values L doc) (clearFieldsErrors doc)).1 = 0) :
    calculate L doc =
      if (get_user_values L doc).vout < 0 then
        inverter L (get_user_values L doc)
          (setDisabled "calculate" true
            (check_limits (get_user_values L doc) (clearFieldsErrors doc)).2)
      else if (get_user_values L doc).vout < (get_user_values L doc).vin then
        step_down L (get_user_values L doc)
          (setDisabled "calculate" true
            (check_limits (get_user_values L doc) (clearFieldsErrors doc)).2)
      else
        step_up L (get_user_values L doc)
          (setDisabled "calculate" true
            (check_limits (get_user_values L doc) (clearFieldsErrors doc)).2) := by
  simp only [calculate, get_user_values_clear, hv, gt_iff_lt, lt_irrefl, if_false]

theorem calculate_of_errors (L : Library) (doc : Document)
    (hv : 0 < (check_limits (get_user_values L doc) (clearFieldsErrors doc)).1) :
    calculate L doc =
      setInnerHTMLByID "results"
        (limits_message (check_limits (get_user_values L doc) (clearFieldsErrors doc)).1)
        (check_limits (get_user_values L doc) (clearFieldsErrors doc)).2 := by
  simp only [calculate, get_user_values_clear, gt_iff_lt, hv, if_true]

theorem show_results_name (L : Library) (r : Results) (title schematic : String)
    (doc : Document) :
    (show_results L r title schematic doc).innerHTML "regulator-name" = title := by
  simp [show_results, setInnerHTMLByID, setSrc]

theorem checkField_snd_innerHTML (b : Bool) (id : String) (st : ℕ × Document) :
    (checkField b id st).2.innerHTML = st.2.innerHTML := by
  cases b <;> rfl

theorem checkField_snd_src (b : Bool) (id : String) (st : ℕ × Document) :
    (checkField b id st).2.src = st.2.src := by
  cases b <;> rfl

theorem checkField_snd_disabled (b : Bool) (id : String) (st : ℕ × Document) :
    (checkField b id st).2.disabled = st.2.disabled := by
  cases b <;> rfl

theorem checkField_snd_value (b : Bool) (id : String) (st : ℕ × Document) :
    (checkField b id st).2.value = st.2.value := by
  cases b <;> rfl

theorem check_limits_innerHTML (nums : UserValues) (doc : Document) :
    (check_limits nums doc).2.innerHTML = doc.innerHTML := by
  simp only [check_limits, checkField_snd_innerHTML]

theorem check_limits_src (nums : UserValues) (doc : Document) :
    (check_limits nums doc).2.src = doc.src := by
  simp only [check_limits, checkField_snd_src]

theorem check_limits_disabled (nums : UserValues) (doc : Document) :
    (check_limits nums doc).2.disabled = doc.disabled := by
  simp only [check_limits, checkField_snd_disabled]

theorem check_limits_value (nums : UserValues) (doc : Document) :
    (check_limits nums doc).2.value = doc.value := by
  simp only [check_limits, checkField_snd_value]

theorem calculate_name_step_up (L : Library) (doc : Document)
    (hv : (check_limits (get_user_values L doc) (clearFieldsErrors doc)).1 = 0)
    (h0 : ¬ (get_user_values L doc).vout < 0)
    (h1 : ¬ (get_user_values L doc).vout < (get_user_values L doc).vin) :
    (calculate L doc).innerHTML "regulator-name" = "Step-Up regulator" := by
  rw [calculate_of_valid L doc hv, if_neg h0, if_neg h1]
  exact show_results_name _ _ _ _ _

theorem calculate_name_step_down (L : Library) (doc : Document)
    (hv : (check_limits (get_user_values L doc) (clearFieldsErrors doc)).1 = 0)
    (h0 : ¬ (get_user_values L doc).vout < 0)
    (h1 : (get_user_values L doc).vout < (get_user_values L doc).vin) :
    (calculate L doc).innerHTML "regulator-name" = "Step-Down regulator" := by
  rw [calculate_of_valid L doc hv, if_neg h0, if_pos h1]
  exact show_results_name _ _ _ _ _

theorem range_iff (x : Float64) (a b : ℚ) :
    (fin a ≤ x ∧ x ≤ fin b) ↔ ¬ (x < fin a ∨ x > fin b) ∧ x ≠ nan := by
  cases x with
  | fin q => simp [Float64.fin_le_fin, Float64.fin_lt_fin, not_or, not_lt]
  | inf s =>
    cases s <;>
      simp [Float64.fin_le_inf, Float64.inf_le_fin, Float64.fin_lt_inf, Float64.inf_lt_fin]
  | nan => simp [Float64.not_nan_le, Float64.not_le_nan]

theorem vout_range_iff (x : Float64) :
    (-40 ≤ x ∧ x ≤ 40 ∧ (x ≤ -3 ∨ 3 ≤ x)) ↔
      ¬ ((x < -40 ∨ x > 40) ∨ (x > -3 ∧ x < 3)) ∧ x ≠ nan := by
  cases x with
  | fin q =>
    show (fin (-40) ≤ fin q ∧ fin q ≤ fin 40 ∧ (fin q ≤ fin (-3) ∨ fin 3 ≤ fin q)) ↔
      ¬ ((fin q < fin (-40) ∨ fin 40 < fin q) ∨ (fin (-3) < fin q ∧ fin q < fin 3)) ∧
        fin q ≠ nan
    have hn : fin q ≠ nan := fun h => Float64.noConfusion h
    simp only [Float64.fin_le_fin, Float64.fin_lt_fin]
    constructor
    · rintro ⟨h1, h2, h3⟩
      refine ⟨?_, hn⟩
      rintro ((h | h) | ⟨h, h'⟩)
      · exact absurd h (not_lt.mpr h1)
      · exact absurd h (not_lt.mpr h2)
      · rcases h3 with h3 | h3
        · exact absurd h (not_lt.mpr h3)
        · exact absurd h' (not_lt.mpr h3)
    · rintro ⟨h, -⟩
      refine ⟨not_lt.mp (fun h' => h (Or.inl (Or.inl h'))),
        not_lt.mp (fun h' => h (Or.inl (Or.inr h'))), ?_⟩
      rcases le_or_lt q (-3) with h3 | h3
      · exact Or.inl h3
      · exact Or.inr (not_lt.mp (fun h' => h (Or.inr ⟨h3, h'⟩)))
  | inf s => cases s <;> decide
  | nan => decide

theorem inLimits_iff (nums : UserValues) (doc : Document) :
    InLimits nums ↔ (check_limits nums doc).1 = 0 ∧ nums.noNaN := by
  rw [check_limits_fst_eq_zero_iff]
  have h1 := range_iff nums.vin 5 40
  have h2 := vout_range_iff nums.vout
  have h3 := range_iff nums.iout 5 1000
  have h4 := range_iff nums.freq 20 100
  have h5 := range_iff nums.res1 1 50
  unfold InLimits UserValuesOf.noNaN
  constructor
  · rintro ⟨a1, a2, a3, a4, a5⟩
    have b1 := h1.mp a1
    have b2 := h2.mp a2
    have b3 := h3.mp a3
    have b4 := h4.mp a4
    have b5 := h5.mp a5
    exact ⟨⟨b1.1, b2.1, b3.1, b4.1, b5.1⟩, b1.2, b2.2, b3.2, b4.2, b5.2⟩
  · rintro ⟨⟨a1, a2, a3, a4, a5⟩, b1, b2, b3, b4, b5⟩
    exact ⟨h1.mpr ⟨a1, b1⟩, h2.mpr ⟨a2, b2⟩, h3.mpr ⟨a3, b3⟩, h4.mpr ⟨a4, b4⟩,
      h5.mpr ⟨a5, b5⟩⟩

theorem not_lt_zero_of_five_le {x y : Float64} (h5 : ¬ x < 5) (hle : x ≤ y) : ¬ y < 0 := by
  cases x with
  | fin a =>
    cases y with
    | fin b =>
      have h1 : ¬ a < 5 := fun h => h5 ((Float64.fin_lt_fin a 5).mpr h)
      have h2 : a ≤ b := (Float64.fin_le_fin a b).mp hle
      intro h
      have h3 : b < 0 := (Float64.fin_lt_fin b 0).mp h
      have h4 := not_lt.mp h1
      clear h5 hle h
      linarith
    | inf t =>
      have ht : t = false := (Float64.fin_le_inf a t).mp hle
      subst ht
      decide
    | nan => exact absurd hle (Float64.not_le_nan _)
  | inf s =>
    cases s with
    | false =>
      cases y with
      | fin b => exact absurd ((Float64.inf_le_fin false b).mp hle) (by decide)
      | inf t =>
        cases t with
        | false => decide
        | true => exact absurd hle (by decide)
      | nan => exact absurd hle (Float64.not_le_nan _)
    | true => exact absurd (show (inf true : Float64) < 5 by decide) h5
  | nan => exact absurd hle (Float64.not_nan_le _)

/-- C2 (as the code has it): when the values read from the page pass the five
checks, `calculate` is the run of exactly one variant on the page left by the
checks: `inverter` iff `vout < 0`, `step_down` iff `0 ≤ vout` and `vout < vin`,
`step_up` iff neither `vout < 0` nor `vout < vin`.  When `vin` and `vout` are not
NaN the last is `vin ≤ vout`; a NaN `vout`, and a NaN `vin` unless `vout < 0`, goes
to `step_up`.  The regulator name on the page tells which variant ran; `vout = -5`
gives the inverter whatever `vin` is, and `vin = 12`, `vout = 12` gives the step-up
regulator. -/
theorem C2_dispatch_by_vout (L : Library) (doc : Document)
    (hv : (check_limits (get_user_values L doc) (clearFieldsErrors doc)).1 = 0) :
    ((get_user_values L doc).vout < 0 →
      calculate L doc = inverter L (get_user_values L doc)
        (setDisabled "calculate" true
          (check_limits (get_user_values L doc) (clearFieldsErrors doc)).2)) ∧
    (0 ≤ (get_user_values L doc).vout ∧
        (get_user_values L doc).vout < (get_user_values L doc).vin →
      calculate L doc = step_down L (get_user_values L doc)
        (setDisabled "calculate" true
          (check_limits (get_user_values L doc) (clearFieldsErrors doc)).2)) ∧
    (¬ (get_user_values L doc).vout < 0 ∧
        ¬ (get_user_values L doc).vout < (get_user_values L doc).vin →
      calculate L doc = step_up L (get_user_values L doc)
        (setDisabled "calculate" true
          (check_limits (get_user_values L doc) (clearFieldsErrors doc)).2)) ∧
    ((calculate L doc).innerHTML "regulator-name" = "Inverter regulator" ↔
      (get_user_values L doc).vout < 0) ∧
    ((calculate L doc).innerHTML "regulator-name" = "Step-Down regulator" ↔
      0 ≤ (get_user_values L doc).vout ∧
        (get_user_values L doc).vout < (get_user_values L doc).vin) ∧
    ((calculate L doc).innerHTML "regulator-name" = "Step-Up regulator" ↔
      ¬ (get_user_values L doc).vout < 0 ∧
        ¬ (get_user_values L doc).vout < (get_user_values L doc).vin) ∧
    ((get_user_values L doc).vin ≠ nan → (get_user_values L doc).vout ≠ nan →
      ((calculate L doc).innerHTML "regulator-name" = "Step-Up regulator" ↔
        (get_user_values L doc).vin ≤ (get_user_values L doc).vout)) ∧
    ((get_user_values L doc).vout = nan →
      (calculate L doc).innerHTML "regulator-name" = "Step-Up regulator") ∧
    ((get_user_values L doc).vin = nan → ¬ (get_user_values L doc).vout < 0 →
      (calculate L doc).innerHTML "regulator-name" = "Step-Up regulator") ∧
    ((get_user_values L doc).vout = -5 →
      (calculate L doc).innerHTML "regulator-name" = "Inverter regulator") ∧
    ((get_user_values L doc).vin = 12 ∧ (get_user_values L doc).vout = 12 →
      (calculate L doc).innerHTML "regulator-name" = "Step-Up regulator") := by
  have hc := calculate_of_valid L doc hv
  have hl := (check_limits_fst_eq_zero_iff _ _).mp hv
  have hvin : ¬ (get_user_values L doc).vin < 5 := fun h => hl.1 (Or.inl h)
  generalize get_user_values L doc = nums at *
  generalize setDisabled "calculate" true (check_limits nums (clearFieldsErrors doc)).2 = page at *
  have hup : ∀ h0 : ¬ nums.vout < 0, ∀ h1 : ¬ nums.vout < nums.vin,
      calculate L doc = step_up L nums page ∧
      (calculate L doc).innerHTML "regulator-name" = "Step-Up regulator" := by
    intro h0 h1
    rw [if_neg h0, if_neg h1] at hc
    exact ⟨hc, by rw [hc]; exact show_results_name _ _ _ _ _⟩
  by_cases h0 : nums.vout < 0
  · rw [if_pos h0] at hc
    have hname : (calculate L doc).innerHTML "regulator-name" = "Inverter regulator" := by
      rw [hc]; exact show_results_name _ _ _ _ _
    rw [hname]
    refine ⟨fun _ => hc, fun h => absurd h0 (Float64.not_lt_of_le h.1),
      fun h => absurd h0 h.1, iff_of_true rfl h0,
      iff_of_false (by decide) (fun h => absurd h0 (Float64.not_lt_of_le h.1)),
      iff_of_false (by decide) (fun h => h.1 h0),
      fun _ _ => iff_of_false (by decide) (fun h => not_lt_zero_of_five_le hvin h h0),
      fun h => ?_, fun _ h => absurd h0 h, fun _ => rfl, fun h => ?_⟩
    · rw [h] at h0; exact absurd h0 (Float64.not_nan_lt _)
    · rw [h.2] at h0; exact absurd h0 (by decide)
  · by_cases h1 : nums.vout < nums.vin
    · rw [if_neg h0, if_pos h1] at hc
      have hname : (calculate L doc).innerHTML "regulator-name" = "Step-Down regulator" := by
        rw [hc]; exact show_results_name _ _ _ _ _
      have hvo : nums.vout ≠ nan := fun h => by
        rw [h] at h1; exact Float64.not_nan_lt _ h1
      have h0le : 0 ≤ nums.vout := Float64.le_of_not_lt hvo (by decide) h0
      rw [hname]
      refine ⟨fun h => absurd h h0, fun _ => hc, fun h => absurd h1 h.2,
        iff_of_false (by decide) h0, iff_of_true rfl ⟨h0le, h1⟩,
        iff_of_false (by decide) (fun h => h.2 h1),
        fun _ _ => iff_of_false (by decide) (fun h => Float64.not_lt_of_le h h1),
        fun h => absurd h hvo, fun h _ => ?_, fun h => ?_, fun h => ?_⟩
      · rw [h] at h1; exact absurd h1 (Float64.not_lt_nan _)
      · rw [h] at h0; exact absurd (show (-5 : Float64) < 0 by decide) h0
      · rw [h.1, h.2] at h1; exact absurd h1 (by decide)
    · obtain ⟨hc', hname⟩ := hup h0 h1
      rw [hname]
      refine ⟨fun h => absurd h h0, fun h => absurd h.2 h1, fun _ => hc',
        iff_of_false (by decide) h0, iff_of_false (by decide) (fun h => h1 h.2),
        iff_of_true rfl ⟨h0, h1⟩,
        fun hi ho => iff_of_true rfl (Float64.le_of_not_lt ho hi h1),
        fun _ => rfl, fun _ _ => rfl, fun h => ?_, fun _ => rfl⟩
      rw [h] at h0; exact absurd (show (-5 : Float64) < 0 by decide) h0

/-- The page with `vin = 12`, `vout = -5` passes the checks and goes to the inverter. -/
theorem C2_dispatch_by_vout_witness :
    (check_limits (get_user_values decimalLibrary (pageOf "12" "-5" "500" "50" "10"))
        (clearFieldsErrors (pageOf "12" "-5" "500" "50" "10"))).1 = 0 ∧
    (calculate decimalLibrary (pageOf "12" "-5" "500" "50" "10")).innerHTML "regulator-name"
      = "Inverter regulator" :=
  ⟨by decide,
   (C2_dispatch_by_vout decimalLibrary (pageOf "12" "-5" "500" "50" "10")
      (by decide)).2.2.2.1.mpr (by decide)⟩

/-- C2 fails for the text `NaN` as `vout` (the other fields valid): `ParseFloat`
reads it as a NaN without error, no check marks it, and `calculate` runs `step_up`
although `vout >= vin` is false. -/
theorem C2_counterexample :
    get_user_values decimalLibrary (pageOf "12" "NaN" "500" "50" "10") =
      { vin := 12, vout := nan, iout := 500, freq := 50, res1 := 10 } ∧
    (check_limits (get_user_values decimalLibrary (pageOf "12" "NaN" "500" "50" "10"))
        (clearFieldsErrors (pageOf "12" "NaN" "500" "50" "10"))).1 = 0 ∧
    (calculate decimalLibrary (pageOf "12" "NaN" "500" "50" "10")).innerHTML "regulator-name"
      = "Step-Up regulator" ∧
    ¬ ((get_user_values decimalLibrary (pageOf "12" "NaN" "500" "50" "10")).vin ≤
        (get_user_values decimalLibrary (pageOf "12" "NaN" "500" "50" "10")).vout) := by
  refine ⟨by decide, by decide, ?_, by decide⟩
  exact calculate_name_step_up _ _ (by decide) (by decide) (by decide)

end MC34063

namespace MC34063
open Float64 (fin inf nan)

/-! ## The count message -/

theorem limits_message_one : limits_message 1 = "1 field is out of limits" := by decide

theorem limits_message_many (n : ℕ) (h2 : 2 ≤ n) :
    limits_message n = toString n ++ " fields are out of limits" := by
  have h : ¬ n < 2 := by omega
  simp only [limits_message, h, if_false, String.append_assoc]
  rfl

theorem check_limits_fst_le (nums : UserValues) (doc : Document) :
    (check_limits nums doc).1 ≤ 5 := by
  rw [check_limits_fst]
  split_ifs <;> simp

/-- C3 (as the code has it): `calculate` runs a variant exactly when `errCount` is
zero, that is when none of the five checks marks its field.  When no value is a
NaN this is exactly when every field is within the bound table: a NaN is marked by
no check although it is within no range.  When `errCount = n ≥ 1`, `calculate` is
the page left by the checks with the count message as the content of the results
area: no variant has run (the regulator name and the schematic are the cleared
ones, the button is not disabled), and the message is `1 field is out of limits`
for `n = 1` and `n fields are out of limits` for `2 ≤ n ≤ 5`. -/
theorem C3_results_only_when_valid (L : Library) (doc : Document) :
    ((check_limits (get_user_values L doc) (clearFieldsErrors doc)).1 = 0 ↔
      ¬ ((get_user_values L doc).vin < 5 ∨ (get_user_values L doc).vin > 40) ∧
      ¬ (((get_user_values L doc).vout < -40 ∨ (get_user_values L doc).vout > 40) ∨
          ((get_user_values L doc).vout > -3 ∧ (get_user_values L doc).vout < 3)) ∧
      ¬ ((get_user_values L doc).iout < 5 ∨ (get_user_values L doc).iout > 1000) ∧
      ¬ ((get_user_values L doc).freq < 20 ∨ (get_user_values L doc).freq > 100) ∧
      ¬ ((get_user_values L doc).res1 < 1 ∨ (get_user_values L doc).res1 > 50)) ∧
    (InLimits (get_user_values L doc) ↔
      (check_limits (get_user_values L doc) (clearFieldsErrors doc)).1 = 0 ∧
        (get_user_values L doc).noNaN) ∧
    ((get_user_values L doc).noNaN →
      ((check_limits (get_user_values L doc) (clearFieldsErrors doc)).1 = 0 ↔
        InLimits (get_user_values L doc))) ∧
    ((check_limits (get_user_values L doc) (clearFieldsErrors doc)).1 = 0 ↔
      ∃ page,
        calculate L doc = inverter L (get_user_values L doc) page ∨
        calculate L doc = step_down L (get_user_values L doc) page ∨
        calculate L doc = step_up L (get_user_values L doc) page) ∧
    ((check_limits (get_user_values L doc) (clearFieldsErrors doc)).1 = 0 ↔
      (calculate L doc).innerHTML "regulator-name" ∈
        ["Inverter regulator", "Step-Down regulator", "Step-Up regulator"]) ∧
    (1 ≤ (check_limits (get_user_values L doc) (clearFieldsErrors doc)).1 →
      calculate L doc =
        setInnerHTMLByID "results"
          (limits_message (check_limits (get_user_values L doc) (clearFieldsErrors doc)).1)
          (check_limits (get_user_values L doc) (clearFieldsErrors doc)).2 ∧
      (calculate L doc).innerHTML "results" =
        limits_message (check_limits (get_user_values L doc) (clearFieldsErrors doc)).1 ∧
      (calculate L doc).innerHTML "regulator-name" = "Regulator name" ∧
      (calculate L doc).src "schematic" = "resources/splash.png" ∧
      (calculate L doc).disabled = doc.disabled) ∧
    (check_limits (get_user_values L doc) (clearFieldsErrors doc)).1 ≤ 5 ∧
    ((check_limits (get_user_values L doc) (clearFieldsErrors doc)).1 = 1 →
      (calculate L doc).innerHTML "results" = "1 field is out of limits") ∧
    (2 ≤ (check_limits (get_user_values L doc) (clearFieldsErrors doc)).1 →
      (calculate L doc).innerHTML "results" =
        toString (check_limits (get_user_values L doc) (clearFieldsErrors doc)).1 ++
          " fields are out of limits") ∧
    (InLimits { get_user_values L doc with vin := 5 } → (get_user_values L doc).vin = 4 →
      (calculate L doc).innerHTML "results" = "1 field is out of limits") ∧
    (InLimits { get_user_values L doc with vin := 5, freq := 20 } →
      (get_user_values L doc).vin = 4 → (get_user_values L doc).freq = 150 →
      (calculate L doc).innerHTML "results" = "2 fields are out of limits") := by
  have hmsg : 1 ≤ (check_limits (get_user_values L doc) (clearFieldsErrors doc)).1 →
      calculate L doc =
        setInnerHTMLByID "results"
          (limits_message (check_limits (get_user_values L doc) (clearFieldsErrors doc)).1)
          (check_limits (get_user_values L doc) (clearFieldsErrors doc)).2 :=
    fun h => calculate_of_errors L doc h
  have hres : 1 ≤ (check_limits (get_user_values L doc) (clearFieldsErrors doc)).1 →
      (calculate L doc).innerHTML "results" =
        limits_message (check_limits (get_user_values L doc) (clearFieldsErrors doc)).1 := by
    intro h; rw [hmsg h]; simp [setInnerHTMLByID]
  have hname : 1 ≤ (check_limits (get_user_values L doc) (clearFieldsErrors doc)).1 →
      (calculate L doc).innerHTML "regulator-name" = "Regulator name" := by
    intro h; rw [hmsg h]
    simp [setInnerHTMLByID, check_limits_innerHTML, clearFieldsErrors, setSrc]
  have hrun : (check_limits (get_user_values L doc) (clearFieldsErrors doc)).1 = 0 →
      (∃ page,
        calculate L doc = inverter L (get_user_values L doc) page ∨
        calculate L doc = step_down L (get_user_values L doc) page ∨
        calculate L doc = step_up L (get_user_values L doc) page) ∧
      (calculate L doc).innerHTML "regulator-name" ∈
        ["Inverter regulator", "Step-Down regulator", "Step-Up regulator"] := by
    intro h
    have hc := calculate_of_valid L doc h
    split_ifs at hc
    · exact ⟨⟨_, Or.inl hc⟩, by rw [hc]; simp [inverter, show_results_name]⟩
    · exact ⟨⟨_, Or.inr (Or.inl hc)⟩, by rw [hc]; simp [step_down, show_results_name]⟩
    · exact ⟨⟨_, Or.inr (Or.inr hc)⟩, by rw [hc]; simp [step_up, show_results_name]⟩
  refine ⟨check_limits_fst_eq_zero_iff _ _, inLimits_iff _ _,
    fun hn => ⟨fun h => (inLimits_iff _ _).mpr ⟨h, hn⟩, fun h => ((inLimits_iff _ _).mp h).1⟩,
    ⟨fun h => (hrun h).1, ?_⟩,
    ⟨fun h => (hrun h).2, ?_⟩, fun h => ⟨hmsg h, hres h, hname h, ?_, ?_⟩,
    check_limits_fst_le _ _, fun h => ?_, fun h => ?_, fun hl h4 => ?_, fun hl h4 hf => ?_⟩
  · rintro ⟨page, h⟩
    by_contra hne
    have h1 := hname (Nat.one_le_iff_ne_zero.mpr hne)
    rcases h with h | h | h <;> rw [h] at h1 <;>
      simp [inverter, step_down, step_up, show_results_name] at h1
  · intro h
    by_contra hne
    rw [hname (Nat.one_le_iff_ne_zero.mpr hne)] at h
    simp at h
  · rw [hmsg h]
    simp [setInnerHTMLByID, check_limits_src, clearFieldsErrors, setSrc, RESOURCES]
  · rw [hmsg h]
    simp [setInnerHTMLByID, check_limits_disabled, clearFieldsErrors, setSrc,
      setBackgroundColor, fieldsNames]
  · rw [hres (by omega), h]; exact limits_message_one
  · rw [hres (by omega)]; exact limits_message_many _ h
  · obtain ⟨-, e2, e3, e4, e5⟩ := (check_limits_fst_eq_zero_iff _ (clearFieldsErrors doc)).mp
      ((inLimits_iff _ (clearFieldsErrors doc)).mp hl).1
    have e2' : ¬ (((get_user_values L doc).vout < -40 ∨ (get_user_values L doc).vout > 40) ∨
        ((get_user_values L doc).vout > -3 ∧ (get_user_values L doc).vout < 3)) := e2
    have e3' : ¬ ((get_user_values L doc).iout < 5 ∨ (get_user_values L doc).iout > 1000) := e3
    have e4' : ¬ ((get_user_values L doc).freq < 20 ∨ (get_user_values L doc).freq > 100) := e4
    have e5' : ¬ ((get_user_values L doc).res1 < 1 ∨ (get_user_values L doc).res1 > 50) := e5
    have c1 : (get_user_values L doc).vin < 5 ∨ (get_user_values L doc).vin > 40 :=
      Or.inl (by rw [h4]; decide)
    have hn : (check_limits (get_user_values L doc) (clearFieldsErrors doc)).1 = 1 := by
      rw [check_limits_fst, if_pos c1, if_neg e2', if_neg e3', if_neg e4', if_neg e5']
    rw [hres (by omega), hn]; exact limits_message_one
  · obtain ⟨-, e2, e3, -, e5⟩ := (check_limits_fst_eq_zero_iff _ (clearFieldsErrors doc)).mp
      ((inLimits_iff _ (clearFieldsErrors doc)).mp hl).1
    have e2' : ¬ (((get_user_values L doc).vout < -40 ∨ (get_user_values L doc).vout > 40) ∨
        ((get_user_values L doc).vout > -3 ∧ (get_user_values L doc).vout < 3)) := e2
    have e3' : ¬ ((get_user_values L doc).iout < 5 ∨ (get_user_values L doc).iout > 1000) := e3
    have e5' : ¬ ((get_user_values L doc).res1 < 1 ∨ (get_user_values L doc).res1 > 50) := e5
    have c1 : (get_user_values L doc).vin < 5 ∨ (get_user_values L doc).vin > 40 :=
      Or.inl (by rw [h4]; decide)
    have c4 : (get_user_values L doc).freq < 20 ∨ (get_user_values L doc).freq > 100 :=
      Or.inr (by rw [hf]; decide)
    have hn : (check_limits (get_user_values L doc) (clearFieldsErrors doc)).1 = 2 := by
      rw [check_limits_fst, if_pos c1, if_neg e2', if_neg e3', if_pos c4, if_neg e5']
    rw [hres (by omega), hn]; decide

/-- The page with `vin = 4` and `freq = 150` has two fields out of limits. -/
theorem C3_results_only_when_valid_witness :
    (check_limits (get_user_values decimalLibrary (pageOf "4" "5" "500" "150" "10"))
        (clearFieldsErrors (pageOf "4" "5" "500" "150" "10"))).1 = 2 ∧
    (calculate decimalLibrary (pageOf "4" "5" "500" "150" "10")).innerHTML "results"
      = "2 fields are out of limits" :=
  have h : (check_limits (get_user_values decimalLibrary (pageOf "4" "5" "500" "150" "10"))
        (clearFieldsErrors (pageOf "4" "5" "500" "150" "10"))).1 = 2 := by decide
  ⟨h, by
    have h2 := (C3_results_only_when_valid decimalLibrary
      (pageOf "4" "5" "500" "150" "10")).2.2.2.2.2.2.2.2.1 (by rw [h])
    rw [h] at h2
    exact h2.trans (by decide)⟩

/-- C3 fails for the text `NaN` as `vin` (the other fields valid): no check marks
the field, `errCount` is 0 and `calculate` runs `step_up`, although `vin` is not
within 5 to 40. -/
theorem C3_counterexample :
    get_user_values decimalLibrary (pageOf "NaN" "5" "500" "50" "10") =
      { vin := nan, vout := 5, iout := 500, freq := 50, res1 := 10 } ∧
    (check_limits (get_user_values decimalLibrary (pageOf "NaN" "5" "500" "50" "10"))
        (clearFieldsErrors (pageOf "NaN" "5" "500" "50" "10"))).1 = 0 ∧
    (calculate decimalLibrary (pageOf "NaN" "5" "500" "50" "10")).innerHTML "regulator-name"
      = "Step-Up regulator" ∧
    ¬ (5 ≤ (get_user_values decimalLibrary (pageOf "NaN" "5" "500" "50" "10")).vin ∧
        (get_user_values decimalLibrary (pageOf "NaN" "5" "500" "50" "10")).vin ≤ 40) ∧
    ¬ InLimits (get_user_values decimalLibrary (pageOf "NaN" "5" "500" "50" "10")) := by
  refine ⟨by decide, by decide, ?_, by decide, by decide⟩
  exact calculate_name_step_up _ _ (by decide) (by decide) (by decide)

end MC34063

namespace MC34063
open Float64 (fin inf nan)

/-! ## The models on numbers, in closed form -/

theorem noNaN_toUserValues (nums : Numbers) : nums.toUserValues.noNaN := by
  simp [UserValuesOf.noNaN, Numbers.toUserValues]

theorem check_limits_numbers (nums : Numbers) (doc : Document) :
    (check_limits nums.toUserValues doc).1 = 0 ↔
      (5 ≤ nums.vin ∧ nums.vin ≤ 40) ∧
      (-40 ≤ nums.vout ∧ nums.vout ≤ 40 ∧ (nums.vout ≤ -3 ∨ 3 ≤ nums.vout)) ∧
      (5 ≤ nums.iout ∧ nums.iout ≤ 1000) ∧
      (20 ≤ nums.freq ∧ nums.freq ≤ 100) ∧
      (1 ≤ nums.res1 ∧ nums.res1 ≤ 50) := by
  have h := inLimits_iff nums.toUserValues doc
  have hq : InLimits nums.toUserValues ↔
      (5 ≤ nums.vin ∧ nums.vin ≤ 40) ∧
      (-40 ≤ nums.vout ∧ nums.vout ≤ 40 ∧ (nums.vout ≤ -3 ∨ 3 ≤ nums.vout)) ∧
      (5 ≤ nums.iout ∧ nums.iout ≤ 1000) ∧
      (20 ≤ nums.freq ∧ nums.freq ≤ 100) ∧
      (1 ≤ nums.res1 ∧ nums.res1 ≤ 50) := by
    show ((fin 5 ≤ fin nums.vin ∧ fin nums.vin ≤ fin 40) ∧
      (fin (-40) ≤ fin nums.vout ∧ fin nums.vout ≤ fin 40 ∧
        (fin nums.vout ≤ fin (-3) ∨ fin 3 ≤ fin nums.vout)) ∧
      (fin 5 ≤ fin nums.iout ∧ fin nums.iout ≤ fin 1000) ∧
      (fin 20 ≤ fin nums.freq ∧ fin nums.freq ≤ fin 100) ∧
      (fin 1 ≤ fin nums.res1 ∧ fin nums.res1 ≤ fin 50)) ↔ _
    simp only [Float64.fin_le_fin]
  rw [← hq, h]
  exact ⟨fun h0 => ⟨h0, noNaN_toUserValues nums⟩, fun h0 => h0.1⟩

open Float64 in
theorem step_down_results_eq (nums : Numbers) (hd : nums.vin - 0.8 - nums.vout ≠ 0)
    (hf : nums.freq ≠ 0) (hvin : nums.vin ≠ 0) (hi : nums.iout ≠ 0) :
    step_down_results nums.toUserValues =
      { lmin := fin ((nums.vin - 1 - nums.vout) * (nums.vout + 0.8)
                  / (2 * nums.iout * nums.freq * nums.vin))
        ct := fin ((nums.vout + 0.8) / (nums.freq * nums.vin) * 4e-8)
        cout := fin (nums.iout / (400000 * nums.freq))
        rsc := fin (165 / nums.iout)
        r2 := fin ((nums.vout - 1.25) / 1.25 * nums.res1)
        rb := fin 0 } := by
  have h2 : nums.freq * 1e3 ≠ 0 := mul_ne_zero hf (by norm_num)
  have e0 : (nums.vout + 0.8) / (nums.vin - 0.8 - nums.vout) + 1
      = nums.vin / (nums.vin - 0.8 - nums.vout) := by field_simp; ring
  have h3 : (nums.vout + 0.8) / (nums.vin - 0.8 - nums.vout) + 1 ≠ 0 := by
    rw [e0]; exact div_ne_zero hvin hd
  have h4 : nums.iout / 1e3 * 2.0 ≠ 0 := by
    refine mul_ne_zero (div_ne_zero hi (by norm_num)) (by norm_num)
  have h5 : (8 : ℚ) * 0.1 ≠ 0 := by norm_num
  have h6 : (1.25 : ℚ) ≠ 0 := by norm_num
  have h7 : (1e3 : ℚ) ≠ 0 := by norm_num
  simp only [step_down_results, Numbers.toUserValues, RIPPLE, ofNat_eq, ofScientific_eq, Nat.cast_ofNat, Nat.cast_one,
    fin_add, fin_sub, fin_mul, fin_div_of_ne _ _ hd, fin_div_of_ne _ _ h2,
    fin_div_of_ne _ _ h3, fin_div_of_ne _ _ h4, fin_div_of_ne _ _ h5, fin_div_of_ne _ _ h6,
    fin_div_of_ne _ _ h7, ResultsOf.mk.injEq, fin.injEq]
  refine ⟨?_, ?_, ?_, ?_, trivial, ?_⟩
  · rw [e0, div_div_eq_mul_div]
    field_simp
    ring
  · rw [e0, div_div_eq_mul_div]
    field_simp
    ring
  · field_simp
    ring
  · field_simp
    ring
  · norm_num

open Float64 in
theorem inverter_results_eq (nums : Numbers) (hvin : 0.8 < nums.vin) (hf : 0 < nums.freq)
    (hi : 0 < nums.iout) :
    inverter_results nums.toUserValues =
      { lmin := fin ((nums.vin - 0.8) * (|nums.vout| + 0.8)
                  / (2 * nums.iout * nums.freq * (|nums.vout| + nums.vin)))
        ct := fin ((|nums.vout| + 0.8) / (nums.freq * (|nums.vout| + nums.vin)) * 4e-8)
        cout := fin (nums.iout * (|nums.vout| + 0.8)
                  / (100000 * nums.freq * (|nums.vout| + nums.vin)))
        rsc := fin (165 / nums.iout)
        r2 := fin ((|nums.vout| - 1.25) / 1.25 * nums.res1)
        rb := fin 0 } ∧
    inverter_tontoff nums.toUserValues = fin (1 / (1000 * nums.freq)) ∧
    inverter_ton nums.toUserValues = fin ((|nums.vout| + 0.8) / (1000 * nums.freq * (|nums.vout| + nums.vin))) := by
  have ha : 0 ≤ |nums.vout| := abs_nonneg _
  have hd : nums.vin - 0.8 ≠ 0 := by linarith
  have hs : |nums.vout| + nums.vin ≠ 0 := by
    have : (0 : ℚ) < 0.8 := by norm_num
    linarith
  have hf0 : nums.freq ≠ 0 := hf.ne.symm
  have hi0 : nums.iout ≠ 0 := hi.ne.symm
  have h2 : nums.freq * 1e3 ≠ 0 := mul_ne_zero hf0 (by norm_num)
  have e0 : (|nums.vout| + 0.8) / (nums.vin - 0.8) + 1
      = (|nums.vout| + nums.vin) / (nums.vin - 0.8) := by field_simp
  have h3 : (|nums.vout| + 0.8) / (nums.vin - 0.8) + 1 ≠ 0 := by
    rw [e0]; exact div_ne_zero hs hd
  have h4 : 2 * nums.iout / 1e3 ≠ 0 :=
    div_ne_zero (mul_ne_zero (by norm_num) hi0) (by norm_num)
  have h5 : (0.1 : ℚ) ≠ 0 := by norm_num
  have h6 : (1.25 : ℚ) ≠ 0 := by norm_num
  have h7 : (1e3 : ℚ) ≠ 0 := by norm_num
  simp only [inverter_results, inverter_tontoff, inverter_ton, Numbers.toUserValues, RIPPLE, ofNat_eq, ofScientific_eq,
    Nat.cast_ofNat, Nat.cast_one, abs_fin,
    fin_add, fin_sub, fin_mul, fin_div_of_ne _ _ hd, fin_div_of_ne _ _ h2,
    fin_div_of_ne _ _ h3, fin_div_of_ne _ _ h4, fin_div_of_ne _ _ h5, fin_div_of_ne _ _ h6,
    fin_div_of_ne _ _ h7, ResultsOf.mk.injEq, fin.injEq]
  refine ⟨⟨?_, ?_, ?_, ?_, trivial, ?_⟩, ?_, ?_⟩
  · rw [e0, div_div_eq_mul_div]
    field_simp
    ring
  · rw [e0, div_div_eq_mul_div]
    field_simp
    ring
  · rw [e0, div_div_eq_mul_div]
    field_simp
    ring
  · field_simp
    ring
  · norm_num
  · field_simp
    ring
  · rw [e0, div_div_eq_mul_div]
    field_simp
    ring

open Float64 in
theorem step_up_results_eq (nums : Numbers) (hvin : 1 < nums.vin)
    (hvout : nums.vin ≤ nums.vout) (hf : 0 < nums.freq) (hi : 0 < nums.iout) :
    step_up_results nums.toUserValues =
      { lmin := fin ((nums.vin - 1) ^ 2 * (nums.vout + 0.8 - nums.vin)
                  / (2 * nums.iout * nums.freq * (nums.vout - 0.2) ^ 2))
        ct := fin ((nums.vout + 0.8 - nums.vin) / (nums.freq * (nums.vout - 0.2)) * 4e-8)
        cout := fin (nums.iout * (nums.vout + 0.8 - nums.vin)
                  / (100000 * nums.freq * (nums.vout - 0.2)))
        rsc := fin (165 * (nums.vin - 1) / (nums.iout * (nums.vout - 0.2)))
        r2 := fin ((nums.vout - 1.25) / 1.25 * nums.res1)
        rb := fin (((nums.vin - 1) - nums.iout * (nums.vout - 0.2) / (500 * (nums.vin - 1)))
                * (165 * (nums.vin - 1) / (nums.iout * (nums.vout - 0.2)))
                / (nums.iout * (nums.vout - 0.2) / (500 * (nums.vin - 1)) / 20 + 5e-3)) } ∧
    step_up_tontoff nums.toUserValues = fin (1 / (1000 * nums.freq)) ∧
    step_up_ton_max nums.toUserValues =
      fin ((nums.vout + 0.8 - nums.vin) / (1000 * nums.freq * (nums.vout - 0.2))) ∧
    step_up_ipeak nums.toUserValues = fin (nums.iout * (nums.vout - 0.2) / (500 * (nums.vin - 1))) := by
  have hd : nums.vin - 1 ≠ 0 := by linarith
  have hg' : 0 < nums.vout - 0.2 := by
    have : (0.2 : ℚ) < 1 := by norm_num
    linarith
  have hg : nums.vout - 0.2 ≠ 0 := hg'.ne.symm
  have hf0 : nums.freq ≠ 0 := hf.ne.symm
  have hi0 : nums.iout ≠ 0 := hi.ne.symm
  have h2 : nums.freq * 1e3 ≠ 0 := mul_ne_zero hf0 (by norm_num)
  have e0 : (nums.vout + 0.8 - nums.vin) / (nums.vin - 1) + 1
      = (nums.vout - 0.2) / (nums.vin - 1) := by field_simp; ring
  have h3 : (nums.vout + 0.8 - nums.vin) / (nums.vin - 1) + 1 ≠ 0 := by
    rw [e0]; exact div_ne_zero hg hd
  have hip : nums.iout / 1e3 * ((nums.vout + 0.8 - nums.vin) / (nums.vin - 1) + 1) * 2.0
      = nums.iout * (nums.vout - 0.2) / (500 * (nums.vin - 1)) := by
    rw [e0]; field_simp; ring
  have hip_pos : 0 < nums.iout * (nums.vout - 0.2) / (500 * (nums.vin - 1)) :=
    div_pos (mul_pos hi hg') (mul_pos (by norm_num) (by linarith))
  have h4 : nums.iout / 1e3 * ((nums.vout + 0.8 - nums.vin) / (nums.vin - 1) + 1) * 2.0 ≠ 0 := by
    rw [hip]; exact hip_pos.ne.symm
  have hib : nums.iout / 1e3 * ((nums.vout + 0.8 - nums.vin) / (nums.vin - 1) + 1) * 2.0 / 20
      + 5e-3 ≠ 0 := by
    rw [hip]
    have : (0 : ℚ) < 5e-3 := by norm_num
    have := div_pos hip_pos (show (0 : ℚ) < 20 by norm_num)
    linarith
  have h5 : (0.1 : ℚ) ≠ 0 := by norm_num
  have h6 : (1.25 : ℚ) ≠ 0 := by norm_num
  have h7 : (1e3 : ℚ) ≠ 0 := by norm_num
  have h8 : (20 : ℚ) ≠ 0 := by norm_num
  simp only [step_up_results, step_up_tontoff, step_up_ton_max, step_up_ipeak,
    Numbers.toUserValues, RIPPLE, ofNat_eq,
    ofScientific_eq, Nat.cast_ofNat, Nat.cast_one,
    fin_add, fin_sub, fin_mul, fin_div_of_ne _ _ hd, fin_div_of_ne _ _ h2,
    fin_div_of_ne _ _ h3, fin_div_of_ne _ _ h4, fin_div_of_ne _ _ h5, fin_div_of_ne _ _ h6,
    fin_div_of_ne _ _ h7, fin_div_of_ne _ _ h8, fin_div_of_ne _ _ hib, ResultsOf.mk.injEq,
    fin.injEq]
  refine ⟨⟨?_, ?_, ?_, ?_, trivial, ?_⟩, ?_, ?_, hip⟩
  · rw [hip, e0, div_div_eq_mul_div]
    field_simp
    ring
  · rw [e0, div_div_eq_mul_div]
    field_simp
    ring
  · rw [e0, div_div_eq_mul_div]
    field_simp
    ring
  · rw [hip]
    field_simp
    ring
  · rw [hip]
    congr 2
    field_simp
    ring
  · field_simp
    ring
  · rw [e0, div_div_eq_mul_div]
    field_simp
    ring

end MC34063

namespace MC34063
open Float64 (fin inf nan)

/-! ## Scenario A -/

theorem get_user_values_scenario_A :
    get_user_values decimalLibrary (pageOf "12" "5" "500" "50" "10") =
      { vin := 12, vout := 5, iout := 500, freq := 50, res1 := 10 } := by
  decide

/-- C5: the input `vin = 12, vout = 5, iout = 500, freq = 50, res1 = 10` passes the
checks, `calculate` runs `step_down` on it, and `step_down` builds `lmin = 58e-6`,
`ct = (1160/3)e-12`, `cout = 25e-6`, `rsc = 0.33`, `r2 = 30`, `rb = 0`; the nearest
whole number of pF is 387 and the nearest tenth of an ohm is 0.3; the text shown
prints 58, 1160/3, 25, 0.33 and 30 and has no line for `rb`. -/
theorem C5_scenario_A :
    (∀ doc, (check_limits { vin := 12, vout := 5, iout := 500, freq := 50, res1 := 10 } doc).1
      = 0) ∧
    (∀ L doc,
      get_user_values L doc = { vin := 12, vout := 5, iout := 500, freq := 50, res1 := 10 } →
      calculate L doc =
        step_down L { vin := 12, vout := 5, iout := 500, freq := 50, res1 := 10 }
          (setDisabled "calculate" true
            (check_limits { vin := 12, vout := 5, iout := 500, freq := 50, res1 := 10 }
              (clearFieldsErrors doc)).2)) ∧
    step_down_results
        ({ vin := 12, vout := 5, iout := 500, freq := 50, res1 := 10 } : UserValues) =
      { lmin := fin 58e-6, ct := fin (1160 / 3 * 1e-12), cout := fin 25e-6,
        rsc := fin 0.33, r2 := fin 30, rb := fin 0 } ∧
    |(1160 / 3 * 1e-12 : ℚ) * 1e12 - 387| < 1 / 2 ∧
    |(0.33 : ℚ) - 0.3| < 0.05 ∧
    (∀ L doc,
      (step_down L { vin := 12, vout := 5, iout := 500, freq := 50, res1 := 10 }
          doc).innerHTML "results" =
        "<pre><u>Step-Down regulator</u>\nL   = " ++ L.Sprintf_f 0 (fin 58) ++
        " uH (min)\nCt  = " ++ L.Sprintf_f 0 (fin (1160 / 3)) ++
        " pF\nCo  = " ++ L.Sprintf_f 0 (fin 25) ++
        " uF (min)\nRsc = " ++ L.Sprintf_f 1 (fin 0.33) ++
        " Ω\nR2  = " ++ L.Sprintf_f 1 (fin 30) ++ " KΩ\n</pre>") := by
  have hr : step_down_results
      ({ vin := 12, vout := 5, iout := 500, freq := 50, res1 := 10 } : UserValues) =
      { lmin := fin 58e-6, ct := fin (1160 / 3 * 1e-12), cout := fin 25e-6,
        rsc := fin 0.33, r2 := fin 30, rb := fin 0 } := by
    show step_down_results (Numbers.toUserValues
      { vin := 12, vout := 5, iout := 500, freq := 50, res1 := 10 }) = _
    rw [step_down_results_eq _ (by norm_num) (by norm_num) (by norm_num) (by norm_num)]
    norm_num
  have hv : ∀ doc,
      (check_limits { vin := 12, vout := 5, iout := 500, freq := 50, res1 := 10 } doc).1 = 0 := by
    intro doc
    rw [check_limits_fst_eq_zero_iff]
    decide
  refine ⟨hv, ?_, hr, ?_, ?_, ?_⟩
  · intro L doc h
    have hc := calculate_of_valid L doc (by rw [h]; exact hv _)
    rw [h] at hc
    rw [hc, if_neg (by decide), if_pos (by decide)]
  · rw [abs_lt]; constructor <;> norm_num
  · rw [abs_lt]; constructor <;> norm_num
  · intro L doc
    simp only [step_down, hr, show_results, setInnerHTMLByID, setSrc]
    simp only [Float64.ofScientific_eq, Float64.fin_mul, Float64.fin.injEq, ne_eq, if_true]
    norm_num only
    rw [if_neg (by decide), if_neg not_false]
    simp only [String.ext_iff, String.data_append, List.append_assoc]
    rfl

/-! ## Signs of the computed values -/

/-- C10: for an input that passes the checks, with `vout < 0` the on-time of
`inverter` lies strictly between 0 and the period and `lmin`, `ct`, `cout`, `rsc`,
`r2` of its results are positive; with `vin ≤ vout` the same holds for `step_up`. -/
theorem C10_inverter_step_up_positive (nums : Numbers) (doc : Document)
    (hv : (check_limits nums.toUserValues doc).1 = 0) :
    (nums.vout < 0 →
      (∃ ton tontoff : ℚ, inverter_ton nums.toUserValues = fin ton ∧ inverter_tontoff nums.toUserValues = fin tontoff ∧
        0 < ton ∧ ton < tontoff) ∧
      (inverter_results nums.toUserValues).ct = inverter_ton nums.toUserValues * 4e-5 ∧
      (inverter_results nums.toUserValues).lmin.pos ∧ (inverter_results nums.toUserValues).ct.pos ∧
      (inverter_results nums.toUserValues).cout.pos ∧ (inverter_results nums.toUserValues).rsc.pos ∧
      (inverter_results nums.toUserValues).r2.pos) ∧
    (nums.vin ≤ nums.vout →
      (∃ ton tontoff : ℚ, step_up_ton_max nums.toUserValues = fin ton ∧ step_up_tontoff nums.toUserValues = fin tontoff ∧
        0 < ton ∧ ton < tontoff) ∧
      (step_up_results nums.toUserValues).ct = step_up_ton_max nums.toUserValues * 4e-5 ∧
      (step_up_results nums.toUserValues).lmin.pos ∧ (step_up_results nums.toUserValues).ct.pos ∧
      (step_up_results nums.toUserValues).cout.pos ∧ (step_up_results nums.toUserValues).rsc.pos ∧
      (step_up_results nums.toUserValues).r2.pos) := by
  obtain ⟨⟨hvin, -⟩, ⟨-, -, hvo⟩, ⟨hi, -⟩, ⟨hf, -⟩, hr, -⟩ :=
    (check_limits_numbers nums doc).mp hv
  have hi0 : 0 < nums.iout := by linarith
  have hf0 : 0 < nums.freq := by linarith
  have hr0 : 0 < nums.res1 := by linarith
  have c08 : (0.8 : ℚ) = 4 / 5 := by norm_num
  have c02 : (0.2 : ℚ) = 1 / 5 := by norm_num
  have c125 : (1.25 : ℚ) = 5 / 4 := by norm_num
  constructor
  · intro hneg
    have hv08 : 0.8 < nums.vin := by rw [c08]; linarith
    obtain ⟨hres, htt, hton⟩ := inverter_results_eq nums hv08 hf0 hi0
    have ha3 : 3 ≤ |nums.vout| := by
      rw [abs_of_neg hneg]
      rcases hvo with h | h <;> linarith
    have hx : 0 < nums.vin - 0.8 := by linarith
    have hy : 0 < |nums.vout| + 0.8 := by rw [c08]; linarith
    have hs : 0 < |nums.vout| + nums.vin := by linarith
    have hz : 0 < |nums.vout| - 1.25 := by rw [c125]; linarith
    refine ⟨⟨_, _, hton, htt, ?_, ?_⟩, rfl, ?_⟩
    · exact div_pos hy (mul_pos (mul_pos (by norm_num) hf0) hs)
    · rw [div_lt_div_iff (mul_pos (mul_pos (by norm_num) hf0) hs) (mul_pos (by norm_num) hf0)]
      have := mul_pos hf0 hx
      nlinarith
    · rw [hres]
      simp only [Float64.pos_fin]
      generalize nums.vin - 0.8 = x at hx
      generalize |nums.vout| + 0.8 = y at hy
      generalize |nums.vout| + nums.vin = g at hs
      generalize |nums.vout| - 1.25 = z at hz
      refine ⟨by positivity, by positivity, by positivity, by positivity, by positivity⟩
  · intro hup
    have hv1 : 1 < nums.vin := by linarith
    obtain ⟨hres, htt, hton, -⟩ := step_up_results_eq nums hv1 hup hf0 hi0
    have hx : 0 < nums.vin - 1 := by linarith
    have hy : 0 < nums.vout + 0.8 - nums.vin := by rw [c08]; linarith
    have hg : 0 < nums.vout - 0.2 := by rw [c02]; linarith
    have hz : 0 < nums.vout - 1.25 := by rw [c125]; linarith
    refine ⟨⟨_, _, hton, htt, ?_, ?_⟩, rfl, ?_⟩
    · exact div_pos hy (mul_pos (mul_pos (by norm_num) hf0) hg)
    · rw [div_lt_div_iff (mul_pos (mul_pos (by norm_num) hf0) hg) (mul_pos (by norm_num) hf0)]
      have := mul_pos hf0 hx
      nlinarith
    · rw [hres]
      simp only [Float64.pos_fin]
      generalize nums.vin - 1 = x at hx
      generalize nums.vout + 0.8 - nums.vin = y at hy
      generalize nums.vout - 0.2 = g at hg
      generalize nums.vout - 1.25 = z at hz
      refine ⟨by positivity, by positivity, by positivity, by positivity, by positivity⟩

/-- The inverter input `vin = 12, vout = -5` of the specification's scenario D. -/
theorem C10_inverter_step_up_positive_witness :
    (check_limits { vin := 12, vout := -5, iout := 500, freq := 50, res1 := 10 }
        (pageOf "12" "-5" "500" "50" "10")).1 = 0 ∧
    (inverter_results ({ vin := 12, vout := -5, iout := 500, freq := 50, res1 := 10 } : UserValues)).lmin.pos :=
  ⟨by decide,
   ((C10_inverter_step_up_positive
      { vin := 12, vout := -5, iout := 500, freq := 50, res1 := 10 }
      (pageOf "12" "-5" "500" "50" "10") (by decide)).1 (by norm_num)).2.2.1⟩

theorem ratio_sign {a r b : ℚ} (hr : 0 < r) (hb : 0 < b) :
    (a * r / b = 0 ↔ a = 0) ∧ (0 ≤ a * r / b ↔ 0 ≤ a) := by
  constructor
  · rw [div_eq_zero_iff, mul_eq_zero]
    constructor
    · rintro ((h | h) | h)
      · exact h
      · exact absurd h hr.ne.symm
      · exact absurd h hb.ne.symm
    · intro h; exact Or.inl (Or.inl h)
  · constructor
    · intro h
      by_contra hn
      have ha : a < 0 := not_le.mp hn
      have : a * r / b < 0 := div_neg_of_neg_of_pos (mul_neg_of_neg_of_pos ha hr) hb
      linarith
    · intro h
      positivity

theorem ratio_pos {a r b : ℚ} (hr : 0 < r) (hb : 0 < b) : 0 < a * r / b ↔ 0 < a := by
  constructor
  · intro h
    by_contra hn
    have ha : a ≤ 0 := not_lt.mp hn
    have : a * r / b ≤ 0 :=
      div_nonpos_of_nonpos_of_nonneg (mul_nonpos_of_nonpos_of_nonneg ha hr.le) hb.le
    linarith
  · intro h
    positivity

theorem step_up_rb_facts (nums : Numbers) (doc : Document)
    (hv : (check_limits nums.toUserValues doc).1 = 0) (hup : nums.vin ≤ nums.vout) :
    ∃ rb ipeak : ℚ, (step_up_results nums.toUserValues).rb = fin rb ∧ step_up_ipeak nums.toUserValues = fin ipeak ∧
      ipeak = nums.iout * (nums.vout - 0.2) / (500 * (nums.vin - 1)) ∧
      (rb = 0 ↔ ipeak = nums.vin - 1) ∧ (0 ≤ rb ↔ ipeak ≤ nums.vin - 1) ∧
      (ipeak = nums.vin - 1 ↔ nums.iout * (nums.vout - 0.2) / 500 = (nums.vin - 1) ^ 2) ∧
      (ipeak ≤ nums.vin - 1 ↔ nums.iout * (nums.vout - 0.2) / 500 ≤ (nums.vin - 1) ^ 2) := by
  obtain ⟨⟨hvin, -⟩, -, ⟨hi, -⟩, ⟨hf, -⟩, -⟩ := (check_limits_numbers nums doc).mp hv
  have hi0 : 0 < nums.iout := by linarith
  have hf0 : 0 < nums.freq := by linarith
  have hv1 : 1 < nums.vin := by linarith
  have c02 : (0.2 : ℚ) = 1 / 5 := by norm_num
  obtain ⟨hres, -, -, hip⟩ := step_up_results_eq nums hv1 hup hf0 hi0
  have hx : 0 < nums.vin - 1 := by linarith
  have hg : 0 < nums.vout - 0.2 := by rw [c02]; linarith
  have hrsc : 0 < 165 * (nums.vin - 1) / (nums.iout * (nums.vout - 0.2)) :=
    div_pos (mul_pos (by norm_num) hx) (mul_pos hi0 hg)
  have hipp : 0 < nums.iout * (nums.vout - 0.2) / (500 * (nums.vin - 1)) :=
    div_pos (mul_pos hi0 hg) (mul_pos (by norm_num) hx)
  have hib : 0 < nums.iout * (nums.vout - 0.2) / (500 * (nums.vin - 1)) / 20 + 5e-3 := by
    have h1 := div_pos hipp (show (0 : ℚ) < 20 by norm_num)
    have h2 : (0 : ℚ) < 5e-3 := by norm_num
    linarith
  have hs := ratio_sign (a := (nums.vin - 1) - nums.iout * (nums.vout - 0.2) / (500 * (nums.vin - 1)))
    hrsc hib
  have e1 : nums.iout * (nums.vout - 0.2) / (500 * (nums.vin - 1))
      = nums.iout * (nums.vout - 0.2) / 500 / (nums.vin - 1) := by
    field_simp
  refine ⟨_, _, by rw [hres], hip, rfl, ?_, ?_, ?_, ?_⟩
  · rw [hs.1, sub_eq_zero]; exact eq_comm
  · rw [hs.2, sub_nonneg]
  · rw [e1, div_eq_iff hx.ne.symm, sq]
  · rw [e1, div_le_iff hx, sq]

/-- C9 (as the code has it): for an input that passes the checks and has
`vin ≤ vout`, the `rb` of `step_up` is a number, and it is not negative exactly when
`ipeak ≤ vin - 1`, that is when `iout * (vout - 0.2) / 500 ≤ (vin - 1)^2`. -/
theorem C9_rb_sign (nums : Numbers) (doc : Document)
    (hv : (check_limits nums.toUserValues doc).1 = 0) (hup : nums.vin ≤ nums.vout) :
    ∃ rb ipeak : ℚ, (step_up_results nums.toUserValues).rb = fin rb ∧ step_up_ipeak nums.toUserValues = fin ipeak ∧
      (0 ≤ rb ↔ ipeak ≤ nums.vin - 1) ∧
      (0 ≤ rb ↔ nums.iout * (nums.vout - 0.2) / 500 ≤ (nums.vin - 1) ^ 2) := by
  obtain ⟨rb, ipeak, hrb, hip, -, -, h0, -, hq⟩ := step_up_rb_facts nums doc hv hup
  exact ⟨rb, ipeak, hrb, hip, h0, h0.trans hq⟩

/-- At `vin = 12, vout = 12, iout = 500` the `rb` of `step_up` is not negative. -/
theorem C9_rb_sign_witness :
    (check_limits { vin := 12, vout := 12, iout := 500, freq := 50, res1 := 10 }
        (pageOf "12" "12" "500" "50" "10")).1 = 0 ∧
    ∃ rb : ℚ,
      (step_up_results ({ vin := 12, vout := 12, iout := 500, freq := 50, res1 := 10 } : UserValues)).rb
        = fin rb ∧ 0 ≤ rb :=
  ⟨by decide,
   match C9_rb_sign { vin := 12, vout := 12, iout := 500, freq := 50, res1 := 10 }
      (pageOf "12" "12" "500" "50" "10") (by decide) (by norm_num) with
   | ⟨rb, _, hrb, _, _, h⟩ => ⟨rb, hrb, h.mpr (by norm_num)⟩⟩

/-- C9 fails at `vin = 5, vout = 40, iout = 1000, freq = 50, res1 = 10`: the input
passes the checks, goes to `step_up`, and `rb = -5247/19900`. -/
theorem C9_counterexample :
    (check_limits { vin := 5, vout := 40, iout := 1000, freq := 50, res1 := 10 }
        (pageOf "5" "40" "1000" "50" "10")).1 = 0 ∧
    get_user_values decimalLibrary (pageOf "5" "40" "1000" "50" "10") =
      { vin := 5, vout := 40, iout := 1000, freq := 50, res1 := 10 } ∧
    (calculate decimalLibrary (pageOf "5" "40" "1000" "50" "10")).innerHTML "regulator-name"
      = "Step-Up regulator" ∧
    (step_up_results ({ vin := 5, vout := 40, iout := 1000, freq := 50, res1 := 10 } : UserValues)).rb
      = fin (-5247 / 19900) ∧
    (-5247 / 19900 : ℚ) < 0 := by
  have hg : get_user_values decimalLibrary (pageOf "5" "40" "1000" "50" "10") =
      { vin := 5, vout := 40, iout := 1000, freq := 50, res1 := 10 } := by decide
  refine ⟨by decide, hg, ?_, ?_, by norm_num⟩
  · exact calculate_name_step_up _ _ (by decide) (by rw [hg]; decide) (by rw [hg]; decide)
  show (step_up_results (Numbers.toUserValues
    { vin := 5, vout := 40, iout := 1000, freq := 50, res1 := 10 })).rb = _
  rw [(step_up_results_eq _ (by norm_num) (by norm_num) (by norm_num) (by norm_num)).1]
  norm_num

/-! ## The step-down model near `vout = vin` -/

open Float64 in
theorem step_down_results_partial (nums : Numbers) (hf : nums.freq ≠ 0)
    (hi : nums.iout ≠ 0) :
    (step_down_results nums.toUserValues).cout = fin (nums.iout / (400000 * nums.freq)) ∧
    (step_down_results nums.toUserValues).rsc = fin (165 / nums.iout) ∧
    (step_down_results nums.toUserValues).r2 = fin ((nums.vout - 1.25) / 1.25 * nums.res1) ∧
    (step_down_results nums.toUserValues).rb = fin 0 := by
  have h2 : nums.freq * 1e3 ≠ 0 := mul_ne_zero hf (by norm_num)
  have h4 : nums.iout / 1e3 * 2.0 ≠ 0 := by
    refine mul_ne_zero (div_ne_zero hi (by norm_num)) (by norm_num)
  have h5 : (8 : ℚ) * 0.1 ≠ 0 := by norm_num
  have h6 : (1.25 : ℚ) ≠ 0 := by norm_num
  have h7 : (1e3 : ℚ) ≠ 0 := by norm_num
  simp only [step_down_results, Numbers.toUserValues, RIPPLE, ofNat_eq, ofScientific_eq, Nat.cast_ofNat, Nat.cast_one,
    fin_add, fin_sub, fin_mul, fin_div_of_ne _ _ h2, fin_div_of_ne _ _ h4,
    fin_div_of_ne _ _ h5, fin_div_of_ne _ _ h6, fin_div_of_ne _ _ h7, fin.injEq]
  refine ⟨?_, ?_, trivial, ?_⟩
  · field_simp
    ring
  · field_simp
    ring
  · norm_num

theorem parseDecimal_5_5 : parseDecimal "5.5" = (fin 5.5, none) := by
  simp [parseDecimal, readSpecial, readUnsigned, readDigits]
  norm_num

theorem get_user_values_5_5 :
    get_user_values decimalLibrary (pageOf "5.5" "5" "500" "50" "10") =
      { vin := 5.5, vout := 5, iout := 500, freq := 50, res1 := 10 } := by
  have h1 : (parseDecimal "5.5").1 = (5.5 : Float64) := by rw [parseDecimal_5_5]; rfl
  have h2 : (parseDecimal "5").1 = (5 : Float64) := by decide
  have h3 : (parseDecimal "500").1 = (500 : Float64) := by decide
  have h4 : (parseDecimal "50").1 = (50 : Float64) := by decide
  have h5 : (parseDecimal "10").1 = (10 : Float64) := by decide
  show ({ vin := (parseDecimal "5.5").1, vout := (parseDecimal "5").1,
          iout := (parseDecimal "500").1, freq := (parseDecimal "50").1,
          res1 := (parseDecimal "10").1 } : UserValues) = _
  rw [h1, h2, h3, h4, h5]

/-- C8 (as the code has it): for an input that passes the checks and has
`0 ≤ vout < vin`, the `cout`, `rsc` and `r2` of `step_down` are positive; when
`vin - 0.8 - vout` is not zero, `ct` is positive and `lmin` is positive exactly when
`vout < vin - 1`; so all five are positive when `vout < vin - 1`. -/
theorem C8_step_down_signs (nums : Numbers) (doc : Document)
    (hv : (check_limits nums.toUserValues doc).1 = 0) (hdown : 0 ≤ nums.vout ∧ nums.vout < nums.vin) :
    (step_down_results nums.toUserValues).cout.pos ∧ (step_down_results nums.toUserValues).rsc.pos ∧
    (step_down_results nums.toUserValues).r2.pos ∧
    (nums.vin - 0.8 - nums.vout ≠ 0 →
      (step_down_results nums.toUserValues).ct.pos ∧
      ((step_down_results nums.toUserValues).lmin.pos ↔ nums.vout < nums.vin - 1)) ∧
    (nums.vout < nums.vin - 1 →
      (step_down_results nums.toUserValues).lmin.pos ∧ (step_down_results nums.toUserValues).ct.pos ∧
      (step_down_results nums.toUserValues).cout.pos ∧ (step_down_results nums.toUserValues).rsc.pos ∧
      (step_down_results nums.toUserValues).r2.pos) := by
  obtain ⟨⟨hvin, -⟩, ⟨-, -, hvo⟩, ⟨hi, -⟩, ⟨hf, -⟩, hr, -⟩ :=
    (check_limits_numbers nums doc).mp hv
  have hi0 : 0 < nums.iout := by linarith
  have hf0 : 0 < nums.freq := by linarith
  have hr0 : 0 < nums.res1 := by linarith
  have hvin0 : 0 < nums.vin := by linarith
  have c08 : (0.8 : ℚ) = 4 / 5 := by norm_num
  have c125 : (1.25 : ℚ) = 5 / 4 := by norm_num
  have hvo3 : 3 ≤ nums.vout := by
    rcases hvo with h | h
    · linarith [hdown.1]
    · exact h
  have hy : 0 < nums.vout + 0.8 := by rw [c08]; linarith
  have hz : 0 < nums.vout - 1.25 := by rw [c125]; linarith
  obtain ⟨hcout, hrsc, hr2, -⟩ := step_down_results_partial nums hf0.ne.symm hi0.ne.symm
  have p1 : (step_down_results nums.toUserValues).cout.pos := by
    rw [hcout, Float64.pos_fin]; positivity
  have p2 : (step_down_results nums.toUserValues).rsc.pos := by
    rw [hrsc, Float64.pos_fin]; positivity
  have p3 : (step_down_results nums.toUserValues).r2.pos := by
    rw [hr2, Float64.pos_fin]
    generalize nums.vout - 1.25 = z at hz
    positivity
  have key : nums.vin - 0.8 - nums.vout ≠ 0 →
      (step_down_results nums.toUserValues).ct.pos ∧
      ((step_down_results nums.toUserValues).lmin.pos ↔ nums.vout < nums.vin - 1) := by
    intro hd
    rw [step_down_results_eq nums hd hf0.ne.symm hvin0.ne.symm hi0.ne.symm]
    simp only [Float64.pos_fin]
    constructor
    · generalize nums.vout + 0.8 = y at hy
      positivity
    · rw [ratio_pos hy (by positivity)]
      constructor <;> intro h <;> linarith
  refine ⟨p1, p2, p3, key, fun h => ?_⟩
  have hd : nums.vin - 0.8 - nums.vout ≠ 0 := by
    rw [c08]; intro h0; linarith
  exact ⟨(key hd).2.mpr h, (key hd).1, p1, p2, p3⟩

/-- Scenario A has `vout < vin - 1`, and its `lmin` is positive. -/
theorem C8_step_down_signs_witness :
    (check_limits { vin := 12, vout := 5, iout := 500, freq := 50, res1 := 10 }
        (pageOf "12" "5" "500" "50" "10")).1 = 0 ∧
    (step_down_results ({ vin := 12, vout := 5, iout := 500, freq := 50, res1 := 10 } : UserValues)).lmin.pos :=
  ⟨by decide,
   ((C8_step_down_signs { vin := 12, vout := 5, iout := 500, freq := 50, res1 := 10 }
      (pageOf "12" "5" "500" "50" "10") (by decide) ⟨by norm_num, by norm_num⟩).2.2.2.2
        (by norm_num)).1⟩

/-- C8 fails at `vin = 5.5, vout = 5, iout = 500, freq = 50, res1 = 10`: the input
passes the checks, `calculate` runs `step_down`, and `lmin = -29/2750000`. -/
theorem C8_counterexample :
    get_user_values decimalLibrary (pageOf "5.5" "5" "500" "50" "10") =
      { vin := 5.5, vout := 5, iout := 500, freq := 50, res1 := 10 } ∧
    (check_limits { vin := 5.5, vout := 5, iout := 500, freq := 50, res1 := 10 }
        (clearFieldsErrors (pageOf "5.5" "5" "500" "50" "10"))).1 = 0 ∧
    (calculate decimalLibrary (pageOf "5.5" "5" "500" "50" "10")).innerHTML "regulator-name"
      = "Step-Down regulator" ∧
    (step_down_results ({ vin := 5.5, vout := 5, iout := 500, freq := 50, res1 := 10 } : UserValues)).lmin
      = fin (-29 / 2750000) ∧
    ¬ (step_down_results
        ({ vin := 5.5, vout := 5, iout := 500, freq := 50, res1 := 10 } : UserValues)).lmin.pos := by
  have hv : (check_limits { vin := 5.5, vout := 5, iout := 500, freq := 50, res1 := 10 }
        (clearFieldsErrors (pageOf "5.5" "5" "500" "50" "10"))).1 = 0 :=
    (check_limits_numbers { vin := 5.5, vout := 5, iout := 500, freq := 50, res1 := 10 }
      _).mpr (by norm_num)
  have hl : (step_down_results
      ({ vin := 5.5, vout := 5, iout := 500, freq := 50, res1 := 10 } : UserValues)).lmin
        = fin (-29 / 2750000) := by
    show (step_down_results (Numbers.toUserValues
      { vin := 5.5, vout := 5, iout := 500, freq := 50, res1 := 10 })).lmin = _
    rw [step_down_results_eq _ (by norm_num) (by norm_num) (by norm_num) (by norm_num)]
    norm_num
  refine ⟨get_user_values_5_5, hv, ?_, hl, ?_⟩
  · exact calculate_name_step_down _ _ (by rw [get_user_values_5_5]; exact hv)
      (by rw [get_user_values_5_5]; decide)
      (by rw [get_user_values_5_5]; exact (Float64.fin_lt_fin 5 5.5).mpr (by norm_num))
  · rw [hl, Float64.pos_fin]; norm_num

end MC34063

namespace MC34063
open Float64 (fin inf nan)

/-! ## Text that is not a number -/

theorem checkField_frame (b : Bool) (id : String) (n : ℕ) (d : Document)
    (v : String → String) :
    checkField b id (n, { d with value := v }) =
      ((checkField b id (n, d)).1, { (checkField b id (n, d)).2 with value := v }) := by
  cases b <;> rfl

theorem check_limits_frame (nums : UserValues) (d : Document) (v : String → String) :
    check_limits nums { d with value := v } =
      ((check_limits nums d).1, { (check_limits nums d).2 with value := v }) := by
  simp only [check_limits, checkField_frame]

theorem calculate_frame (L : Library) (d : Document) (v : String → String)
    (hn : get_user_values L { d with value := v } = get_user_values L d) :
    calculate L { d with value := v } = { calculate L d with value := v } := by
  have hc : clearFieldsErrors { d with value := v } = { clearFieldsErrors d with value := v } :=
    rfl
  simp only [calculate, get_user_values_clear, hn]
  rw [hc, check_limits_frame]
  simp only
  split_ifs <;> rfl

theorem setValue_eq (id text : String) (doc : Document) :
    setValue id text doc = { setValue id "0" doc with value := (setValue id text doc).value } :=
  rfl

theorem get_user_values_setValue (L : Library) (doc : Document) (f s : String)
    (hs : (L.ParseFloat s).1 = (L.ParseFloat "0").1) :
    get_user_values L (setValue f s doc) = get_user_values L (setValue f "0" doc) := by
  simp only [get_user_values, getValueByID, setValue]
  by_cases h1 : "vin" = f <;> by_cases h2 : "vout" = f <;> by_cases h3 : "iout" = f <;>
    by_cases h4 : "freq" = f <;> by_cases h5 : "res1" = f <;>
    simp [h1, h2, h3, h4, h5, hs]

theorem zero_field_flagged (L : Library) (doc : Document) (f : String)
    (hf : f ∈ fieldsNames) (h0 : (L.ParseFloat (doc.value f)).1 = 0) :
    (check_limits (get_user_values L doc) (clearFieldsErrors doc)).2.backgroundColor f
      = "LightPink" ∧
    1 ≤ (check_limits (get_user_values L doc) (clearFieldsErrors doc)).1 := by
  simp only [fieldsNames, List.mem_cons, List.mem_singleton, List.not_mem_nil, or_false] at hf
  rw [check_limits_bg, check_limits_fst]
  rcases hf with h | h | h | h | h <;> subst h
  · have hz : (get_user_values L doc).vin = 0 := h0
    have hc : (get_user_values L doc).vin < 5 ∨ (get_user_values L doc).vin > 40 :=
      Or.inl (by rw [hz]; decide)
    rw [if_pos (Or.inl ⟨rfl, hc⟩)]
    refine ⟨rfl, ?_⟩
    rw [if_pos hc]
    omega
  · have hz : (get_user_values L doc).vout = 0 := h0
    have hc : ((get_user_values L doc).vout < -40 ∨ (get_user_values L doc).vout > 40) ∨
        ((get_user_values L doc).vout > -3 ∧ (get_user_values L doc).vout < 3) :=
      Or.inr (by rw [hz]; decide)
    rw [if_pos (Or.inr (Or.inl ⟨rfl, hc⟩))]
    refine ⟨rfl, ?_⟩
    rw [if_pos hc]
    omega
  · have hz : (get_user_values L doc).iout = 0 := h0
    have hc : (get_user_values L doc).iout < 5 ∨ (get_user_values L doc).iout > 1000 :=
      Or.inl (by rw [hz]; decide)
    rw [if_pos (Or.inr (Or.inr (Or.inl ⟨rfl, hc⟩)))]
    refine ⟨rfl, ?_⟩
    rw [if_pos hc]
    omega
  · have hz : (get_user_values L doc).freq = 0 := h0
    have hc : (get_user_values L doc).freq < 20 ∨ (get_user_values L doc).freq > 100 :=
      Or.inl (by rw [hz]; decide)
    rw [if_pos (Or.inr (Or.inr (Or.inr (Or.inl ⟨rfl, hc⟩))))]
    refine ⟨rfl, ?_⟩
    rw [if_pos hc]
    omega
  · have hz : (get_user_values L doc).res1 = 0 := h0
    have hc : (get_user_values L doc).res1 < 1 ∨ (get_user_values L doc).res1 > 50 :=
      Or.inl (by rw [hz]; decide)
    rw [if_pos (Or.inr (Or.inr (Or.inr (Or.inr ⟨rfl, hc⟩))))]
    refine ⟨rfl, ?_⟩
    rw [if_pos hc]
    omega

/-- C7 (as the code has it): `get_user_values` drops the error of `ParseFloat`, so a
text that is not a number is read as the 0 that `ParseFloat` returns with its
syntax error.  The values read, and everything `calculate` writes to the page, are
then the same as with the text `0` in that field: the field is marked as out of
limits and counted in the message, like any range violation. -/
theorem C7_unparseable_read_as_zero (L : Library) (doc : Document) (f s : String)
    (hf : f ∈ fieldsNames)
    (hs : L.ParseFloat s = (0, some NumError.ErrSyntax))
    (h0 : L.ParseFloat "0" = (0, none)) :
    get_user_values L (setValue f s doc) = get_user_values L (setValue f "0" doc) ∧
    calculate L (setValue f s doc) =
      { calculate L (setValue f "0" doc) with value := (setValue f s doc).value } ∧
    (calculate L (setValue f s doc)).backgroundColor f = "LightPink" ∧
    1 ≤ (check_limits (get_user_values L (setValue f s doc))
          (clearFieldsErrors (setValue f s doc))).1 ∧
    (calculate L (setValue f s doc)).innerHTML "results" =
      limits_message (check_limits (get_user_values L (setValue f s doc))
          (clearFieldsErrors (setValue f s doc))).1 := by
  have hn : get_user_values L (setValue f s doc) = get_user_values L (setValue f "0" doc) :=
    get_user_values_setValue L doc f s (by rw [hs, h0])
  have hz : (L.ParseFloat ((setValue f s doc).value f)).1 = 0 := by
    simp [setValue, hs]
  obtain ⟨hbg, hcnt⟩ := zero_field_flagged L (setValue f s doc) f hf hz
  refine ⟨hn, ?_, ?_, hcnt, ?_⟩
  · rw [setValue_eq f s doc]
    exact calculate_frame L (setValue f "0" doc) _ hn
  · rw [calculate_bg]; exact hbg
  · rw [calculate_of_errors L _ hcnt]
    simp [setInnerHTMLByID]

/-- The text `abc` typed as `vin` is read as 0 and marked as out of limits. -/
theorem C7_unparseable_read_as_zero_witness :
    "vin" ∈ fieldsNames ∧
    decimalLibrary.ParseFloat "abc" = (0, some NumError.ErrSyntax) ∧
    decimalLibrary.ParseFloat "0" = (0, none) ∧
    (calculate decimalLibrary
      (setValue "vin" "abc" (pageOf "12" "5" "500" "50" "10"))).backgroundColor "vin"
        = "LightPink" :=
  ⟨by decide, by decide, by decide,
   (C7_unparseable_read_as_zero decimalLibrary (pageOf "12" "5" "500" "50" "10") "vin" "abc"
      (by decide) (by decide) (by decide)).2.2.1⟩

/-- C7 fails for the text `abc` as `vin` (the other fields valid): `ParseFloat`
reports a syntax error, and yet the values read and all that `calculate` writes are
the same as for the text `0`, one field out of limits in both cases. -/
theorem C7_counterexample :
    decimalLibrary.ParseFloat "abc" = (0, some NumError.ErrSyntax) ∧
    decimalLibrary.ParseFloat "0" = (0, none) ∧
    get_user_values decimalLibrary (pageOf "abc" "5" "500" "50" "10") =
      get_user_values decimalLibrary (pageOf "0" "5" "500" "50" "10") ∧
    (calculate decimalLibrary (pageOf "abc" "5" "500" "50" "10")).innerHTML "results"
      = "1 field is out of limits" ∧
    (calculate decimalLibrary (pageOf "0" "5" "500" "50" "10")).innerHTML "results"
      = "1 field is out of limits" ∧
    (calculate decimalLibrary (pageOf "abc" "5" "500" "50" "10")).backgroundColor =
      (calculate decimalLibrary (pageOf "0" "5" "500" "50" "10")).backgroundColor ∧
    (calculate decimalLibrary (pageOf "abc" "5" "500" "50" "10")).innerHTML =
      (calculate decimalLibrary (pageOf "0" "5" "500" "50" "10")).innerHTML ∧
    (calculate decimalLibrary (pageOf "abc" "5" "500" "50" "10")).src =
      (calculate decimalLibrary (pageOf "0" "5" "500" "50" "10")).src ∧
    (calculate decimalLibrary (pageOf "abc" "5" "500" "50" "10")).disabled =
      (calculate decimalLibrary (pageOf "0" "5" "500" "50" "10")).disabled := by
  have hn : get_user_values decimalLibrary (pageOf "abc" "5" "500" "50" "10") =
      get_user_values decimalLibrary (pageOf "0" "5" "500" "50" "10") := by decide
  have hp : pageOf "abc" "5" "500" "50" "10" =
      { pageOf "0" "5" "500" "50" "10" with
        value := (pageOf "abc" "5" "500" "50" "10").value } := rfl
  have hc : calculate decimalLibrary (pageOf "abc" "5" "500" "50" "10") =
      { calculate decimalLibrary (pageOf "0" "5" "500" "50" "10") with
        value := (pageOf "abc" "5" "500" "50" "10").value } := by
    rw [hp]
    exact calculate_frame decimalLibrary (pageOf "0" "5" "500" "50" "10") _ hn
  have hcnt : (check_limits (get_user_values decimalLibrary (pageOf "0" "5" "500" "50" "10"))
      (clearFieldsErrors (pageOf "0" "5" "500" "50" "10"))).1 = 1 := by decide
  have hr : (calculate decimalLibrary (pageOf "0" "5" "500" "50" "10")).innerHTML "results"
      = "1 field is out of limits" := by
    rw [calculate_of_errors _ _ (by rw [hcnt]; decide), hcnt]
    simp [setInnerHTMLByID, limits_message_one]
  refine ⟨by decide, by decide, hn, ?_, hr, ?_, ?_, ?_, ?_⟩
  · rw [hc]; exact hr
  · rw [hc]
  · rw [hc]
  · rw [hc]
  · rw [hc]

end MC34063

namespace MC34063
open Float64 (fin inf nan)

/-! ## Rounding to binary64 -/

theorem roundEven_eq (x : ℚ) (m : ℤ) (h : |x - m| < 1 / 2) : roundEven x = m := by
  rw [abs_lt] at h
  obtain ⟨h1, h2⟩ := h
  unfold roundEven
  simp only
  rcases le_or_lt (m : ℚ) x with hm | hm
  · have hf : ⌊x⌋ = m := by
      rw [Int.floor_eq_iff]
      constructor
      · exact hm
      · linarith
    rw [hf, if_pos h2]
  · have hf : ⌊x⌋ = m - 1 := by
      rw [Int.floor_eq_iff]
      push_cast
      constructor
      · linarith
      · linarith
    have hr : ¬ (x - ((m - 1 : ℤ) : ℚ) < 1 / 2) := by
      push_cast
      linarith
    have hr2 : 1 / 2 < x - ((m - 1 : ℤ) : ℚ) := by
      push_cast
      linarith
    rw [hf, if_neg hr, if_pos hr2]
    ring

theorem round64_zero : round64 0 = fin 0 := by
  simp [round64]

theorem roundEven_tie (x : ℚ) (f : ℤ) (h : x = f + 1 / 2) :
    roundEven x = if f % 2 = 0 then f else f + 1 := by
  have hf : ⌊x⌋ = f := by
    rw [Int.floor_eq_iff]
    constructor <;> linarith
  unfold roundEven
  simp only
  rw [hf, if_neg (by rw [h]; norm_num), if_neg (by rw [h]; norm_num)]

theorem round64_of (x : ℚ) (e m : ℤ) (he : -1022 ≤ e) (hlo : (2 : ℚ) ^ e ≤ |x|)
    (hhi : |x| < (2 : ℚ) ^ (e + 1)) (hm : roundEven (x / 2 ^ (e - 52)) = m)
    (hmax : |(m : ℚ) * 2 ^ (e - 52)| < 2 ^ (1024 : ℤ)) :
    round64 x = fin ((m : ℚ) * 2 ^ (e - 52)) := by
  have hpos : 0 < |x| := lt_of_lt_of_le (zpow_pos (by norm_num) e) hlo
  have hx : x ≠ 0 := abs_pos.mp hpos
  have hlog : Int.log 2 |x| = e := by
    have h1 : e ≤ Int.log 2 |x| :=
      (Int.zpow_le_iff_le_log (by norm_num) hpos).mp (by exact_mod_cast hlo)
    have h2 : Int.log 2 |x| < e + 1 :=
      (Int.lt_zpow_iff_log_lt (by norm_num) hpos).mp (by exact_mod_cast hhi)
    omega
  unfold round64
  rw [if_neg hx]
  simp only [hlog, max_eq_left he]
  rw [hm, if_neg (not_le.mpr hmax)]

theorem round64_eq (x : ℚ) (e m : ℤ) (he : -1022 ≤ e) (hlo : (2 : ℚ) ^ e ≤ |x|)
    (hhi : |x| < (2 : ℚ) ^ (e + 1)) (hm : |x / 2 ^ (e - 52) - m| < 1 / 2)
    (hmax : |(m : ℚ) * 2 ^ (e - 52)| < 2 ^ (1024 : ℤ)) :
    round64 x = fin ((m : ℚ) * 2 ^ (e - 52)) :=
  round64_of x e m he hlo hhi (roundEven_eq _ m hm) hmax

namespace Float64
theorem rnd_fin (q : ℚ) : (fin q).rnd = round64 q := rfl
end Float64

namespace Binary64
theorem add_def (a b : Binary64) : a + b = ⟨(a.val + b.val).rnd⟩ := rfl
theorem sub_def (a b : Binary64) : a - b = ⟨(a.val - b.val).rnd⟩ := rfl
theorem mul_def (a b : Binary64) : a * b = ⟨(a.val * b.val).rnd⟩ := rfl
theorem div_def (a b : Binary64) : a / b = ⟨(a.val / b.val).rnd⟩ := rfl
theorem ofScientific_def (m : ℕ) (s : Bool) (e : ℕ) :
    (OfScientific.ofScientific m s e : Binary64) =
      ⟨round64 (OfScientific.ofScientific m s e)⟩ := rfl
theorem ofNat_def (n : ℕ) : (OfNat.ofNat n : Binary64) = ⟨round64 (n : ℚ)⟩ := rfl
end Binary64

/-! ## Rounding to binary64: error bounds -/

theorem roundEven_near (t : ℚ) : |(roundEven t : ℚ) - t| ≤ 1 / 2 := by
  unfold roundEven
  simp only
  have h1 := Int.floor_le t
  have h2 := Int.lt_floor_add_one t
  split_ifs with ha hb hc
  · rw [abs_le]; constructor <;> linarith
  · rw [abs_le]; push_cast; constructor <;> linarith
  · rw [abs_le]; constructor <;> linarith
  · rw [abs_le]; push_cast; constructor <;> linarith

theorem le_roundEven (t : ℚ) (n : ℤ) (h : (n : ℚ) ≤ t) : n ≤ roundEven t := by
  have h1 := roundEven_near t
  rw [abs_le] at h1
  have h2 : ((n - 1 : ℤ) : ℚ) < roundEven t := by push_cast; linarith
  have h3 : n - 1 < roundEven t := by exact_mod_cast h2
  omega

theorem roundEven_le (t : ℚ) (n : ℤ) (h : t ≤ (n : ℚ)) : roundEven t ≤ n := by
  have h1 := roundEven_near t
  rw [abs_le] at h1
  have h2 : (roundEven t : ℚ) < ((n + 1 : ℤ) : ℚ) := by push_cast; linarith
  have h3 : roundEven t < n + 1 := by exact_mod_cast h2
  omega

/-- The rounded value `y` of `x`: within half a unit in the last place, of the sign
of `x`, and an infinity exactly when `y` is beyond the largest `float64`. -/
theorem round64_spec (x : ℚ) :
    ∃ y : ℚ, |y - x| ≤ |x| / 2 ^ 53 + 1 / 2 ^ 1075 ∧ (0 ≤ x → 0 ≤ y) ∧ (x ≤ 0 → y ≤ 0) ∧
      round64 x = if (2 : ℚ) ^ (1024 : ℤ) ≤ |y| then inf (decide (x < 0)) else fin y := by
  by_cases hx : x = 0
  · refine ⟨0, ?_, ?_, ?_, ?_⟩
    · subst hx; norm_num
    · intro _; exact le_refl _
    · intro _; exact le_refl _
    · subst hx
      rw [round64_zero, if_neg]
      norm_num
  · have hpos : 0 < |x| := abs_pos.mpr hx
    obtain ⟨e, he⟩ : ∃ e : ℤ, e = max (Int.log 2 |x|) (-1022) := ⟨_, rfl⟩
    have hu : (0 : ℚ) < 2 ^ (e - 52) := zpow_pos (by norm_num) _
    obtain ⟨m, hm⟩ : ∃ m : ℤ, m = roundEven (x / 2 ^ (e - 52)) := ⟨_, rfl⟩
    have hnear := roundEven_near (x / 2 ^ (e - 52))
    rw [← hm] at hnear
    have hr : round64 x =
        if (2 : ℚ) ^ (1024 : ℤ) ≤ |(m : ℚ) * 2 ^ (e - 52)| then inf (decide (x < 0))
        else fin ((m : ℚ) * 2 ^ (e - 52)) := by
      unfold round64
      rw [if_neg hx]
      simp only [← he, ← hm]
    have hhalf : (2 : ℚ) ^ (e - 52) / 2 ≤ |x| / 2 ^ 53 + 1 / 2 ^ 1075 := by
      rcases le_total (Int.log 2 |x|) (-1022) with hl | hl
      · have he2 : e = -1022 := by rw [he]; exact max_eq_right hl
        rw [he2]
        have : (0 : ℚ) ≤ |x| / 2 ^ 53 := by positivity
        have h2 : (2 : ℚ) ^ (-1022 - 52 : ℤ) / 2 = 1 / 2 ^ 1075 := by
          rw [show (-1022 - 52 : ℤ) = -(1074 : ℕ) by norm_num, zpow_neg, zpow_natCast]
          rw [inv_eq_one_div, div_div]
          norm_num
        rw [h2]
        linarith
      · have he2 : e = Int.log 2 |x| := by rw [he]; exact max_eq_left hl
        have hle : (2 : ℚ) ^ e ≤ |x| := by
          rw [he2]
          exact Int.zpow_log_le_self (by norm_num) hpos
        have h2 : (2 : ℚ) ^ (e - 52) / 2 = 2 ^ e / 2 ^ 53 := by
          rw [zpow_sub₀ (by norm_num : (2 : ℚ) ≠ 0), div_div]
          norm_num
        rw [h2]
        have h3 : (2 : ℚ) ^ e / 2 ^ 53 ≤ |x| / 2 ^ 53 := by
          apply div_le_div_of_nonneg_right hle (by positivity)
        have : (0 : ℚ) ≤ 1 / 2 ^ 1075 := by positivity
        linarith
    refine ⟨(m : ℚ) * 2 ^ (e - 52), ?_, ?_, ?_, hr⟩
    · have h1 : (m : ℚ) * 2 ^ (e - 52) - x = ((m : ℚ) - x / 2 ^ (e - 52)) * 2 ^ (e - 52) := by
        field_simp
      rw [h1, abs_mul, abs_of_pos hu]
      calc |(m : ℚ) - x / 2 ^ (e - 52)| * 2 ^ (e - 52)
          ≤ 1 / 2 * 2 ^ (e - 52) := by
            apply mul_le_mul_of_nonneg_right hnear hu.le
        _ = 2 ^ (e - 52) / 2 := by ring
        _ ≤ _ := hhalf
    · intro h0
      have h1 : ((0 : ℤ) : ℚ) ≤ x / 2 ^ (e - 52) := by
        simp only [Int.cast_zero]; positivity
      have h2 := le_roundEven _ 0 h1
      rw [← hm] at h2
      have h3 : (0 : ℚ) ≤ m := by exact_mod_cast h2
      positivity
    · intro h0
      have h1 : x / 2 ^ (e - 52) ≤ ((0 : ℤ) : ℚ) := by
        simp only [Int.cast_zero]
        exact div_nonpos_of_nonpos_of_nonneg h0 hu.le
      have h2 := roundEven_le _ 0 h1
      rw [← hm] at h2
      have h3 : (m : ℚ) ≤ 0 := by exact_mod_cast h2
      exact mul_nonpos_of_nonpos_of_nonneg h3 hu.le

/-- A value of magnitude up to `2^1000` rounds to a number. -/
theorem round64_near (x : ℚ) (hB : |x| ≤ 2 ^ 1000) :
    ∃ y : ℚ, round64 x = fin y ∧ |y - x| ≤ |x| / 2 ^ 53 + 1 / 2 ^ 1075 ∧
      (0 ≤ x → 0 ≤ y) ∧ (x ≤ 0 → y ≤ 0) := by
  obtain ⟨y, h1, h2, h3, h4⟩ := round64_spec x
  refine ⟨y, ?_, h1, h2, h3⟩
  rw [h4, if_neg]
  rw [not_le]
  have h5 : |y| ≤ |y - x| + |x| := by
    have := abs_add (y - x) x
    simpa using this
  have h6 : |x| / 2 ^ 53 ≤ 2 ^ 1000 / 2 ^ 53 := div_le_div_of_nonneg_right hB (by positivity)
  have h7 : (2 : ℚ) ^ 1000 + 2 ^ 1000 / 2 ^ 53 + 1 / 2 ^ 1075 < 2 ^ (1024 : ℤ) := by
    norm_num
  linarith

/-- A value between `lo` and `hi`, both of magnitude up to `2^20`, rounds to a number
between `lo - 2^-32` and `hi + 2^-32`. -/
theorem round64_within (x lo hi : ℚ) (h1 : lo ≤ x) (h2 : x ≤ hi) (hb1 : -1048576 ≤ lo)
    (hb2 : hi ≤ 1048576) :
    ∃ y : ℚ, round64 x = fin y ∧ lo - 1 / 2 ^ 32 ≤ y ∧ y ≤ hi + 1 / 2 ^ 32 := by
  have hx : |x| ≤ 1048576 := abs_le.mpr ⟨by linarith, by linarith⟩
  obtain ⟨y, e, h3, -, -⟩ := round64_near x (le_trans hx (by norm_num))
  refine ⟨y, e, ?_, ?_⟩
  · have h4 : |x| / 2 ^ 53 + 1 / 2 ^ 1075 ≤ (1 : ℚ) / 2 ^ 32 := by
      have : |x| / 2 ^ 53 ≤ 1048576 / 2 ^ 53 := div_le_div_of_nonneg_right hx (by positivity)
      have h5 : (1048576 : ℚ) / 2 ^ 53 + 1 / 2 ^ 1075 ≤ 1 / 2 ^ 32 := by norm_num
      linarith
    have := (abs_le.mp (le_trans h3 h4)).1
    linarith
  · have h4 : |x| / 2 ^ 53 + 1 / 2 ^ 1075 ≤ (1 : ℚ) / 2 ^ 32 := by
      have : |x| / 2 ^ 53 ≤ 1048576 / 2 ^ 53 := div_le_div_of_nonneg_right hx (by positivity)
      have h5 : (1048576 : ℚ) / 2 ^ 53 + 1 / 2 ^ 1075 ≤ 1 / 2 ^ 32 := by norm_num
      linarith
    have := (abs_le.mp (le_trans h3 h4)).2
    linarith

/-- A value of magnitude at least `2^k` rounds to a multiple of `2^(k-52)` that is
not smaller in magnitude than `2^k`. -/
theorem round64_grid (x : ℚ) (k : ℤ) (hk : -1022 ≤ k) (hlo : (2 : ℚ) ^ k ≤ |x|)
    (hB : |x| ≤ 2 ^ 1000) :
    ∃ n : ℤ, round64 x = fin ((n : ℚ) * 2 ^ (k - 52)) ∧ (2 : ℚ) ^ k ≤ |(n : ℚ) * 2 ^ (k - 52)| := by
  have hpos : 0 < |x| := lt_of_lt_of_le (zpow_pos (by norm_num) k) hlo
  have hx : x ≠ 0 := abs_pos.mp hpos
  have hkl : k ≤ Int.log 2 |x| :=
    (Int.zpow_le_iff_le_log (by norm_num) hpos).mp (by exact_mod_cast hlo)
  obtain ⟨e, he⟩ : ∃ e : ℤ, e = Int.log 2 |x| := ⟨_, rfl⟩
  have hmax : max (Int.log 2 |x|) (-1022) = e := by
    rw [he]; exact max_eq_left (by omega)
  have hke : k ≤ e := by omega
  have hle : (2 : ℚ) ^ e ≤ |x| := by
    rw [he]; exact Int.zpow_log_le_self (by norm_num) hpos
  have hu : (0 : ℚ) < 2 ^ (e - 52) := zpow_pos (by norm_num) _
  have h2e : (2 : ℚ) ^ (52 : ℕ) * 2 ^ (e - 52) = 2 ^ e := by
    have h1 : (52 : ℤ) + (e - 52) = e := by ring
    have h2 : (2 : ℚ) ^ e = 2 ^ (52 : ℤ) * 2 ^ (e - 52) := by
      rw [← zpow_add₀ (by norm_num : (2 : ℚ) ≠ 0), h1]
    rw [h2]
    norm_num
  obtain ⟨m, hm⟩ : ∃ m : ℤ, m = roundEven (x / 2 ^ (e - 52)) := ⟨_, rfl⟩
  obtain ⟨y, hy1, hy2, -, -⟩ := round64_near x hB
  have hr : round64 x = fin ((m : ℚ) * 2 ^ (e - 52)) := by
    have h1 : round64 x =
        if (2 : ℚ) ^ (1024 : ℤ) ≤ |(m : ℚ) * 2 ^ (e - 52)| then inf (decide (x < 0))
        else fin ((m : ℚ) * 2 ^ (e - 52)) := by
      unfold round64
      rw [if_neg hx]
      simp only [hmax, ← hm]
    by_cases h : (2 : ℚ) ^ (1024 : ℤ) ≤ |(m : ℚ) * 2 ^ (e - 52)|
    · rw [h1, if_pos h] at hy1
      exact absurd hy1 (fun h => Float64.noConfusion h)
    · rw [h1, if_neg h]
  -- the significand is at least `2^52` in magnitude
  have h52 : (2 : ℚ) ^ (52 : ℕ) ≤ |(m : ℚ)| := by
    have hq : |x| / 2 ^ (e - 52) = |x / 2 ^ (e - 52)| := by
      rw [abs_div, abs_of_pos hu]
    have hge : (2 : ℚ) ^ (52 : ℕ) ≤ |x / 2 ^ (e - 52)| := by
      rw [← hq, le_div_iff₀ hu]
      rw [h2e]
      exact hle
    rcases le_or_lt 0 x with h0 | h0
    · have h1 : ((2 ^ 52 : ℤ) : ℚ) ≤ x / 2 ^ (e - 52) := by
        rw [abs_of_nonneg (div_nonneg h0 hu.le)] at hge
        push_cast
        exact hge
      have h2 := le_roundEven _ _ h1
      rw [← hm] at h2
      have h3 : ((2 ^ 52 : ℤ) : ℚ) ≤ m := by exact_mod_cast h2
      push_cast at h3
      exact le_trans h3 (le_abs_self _)
    · have h1 : x / 2 ^ (e - 52) ≤ ((-(2 ^ 52) : ℤ) : ℚ) := by
        rw [abs_of_neg (div_neg_of_neg_of_pos h0 hu)] at hge
        push_cast
        linarith
      have h2 := roundEven_le _ _ h1
      rw [← hm] at h2
      have h3 : (m : ℚ) ≤ ((-(2 ^ 52) : ℤ) : ℚ) := by exact_mod_cast h2
      push_cast at h3
      have h4 : (2 : ℚ) ^ (52 : ℕ) ≤ -(m : ℚ) := by linarith
      exact le_trans h4 (neg_le_abs _)
  obtain ⟨d, hd⟩ : ∃ d : ℕ, e = k + d := ⟨(e - k).toNat, by omega⟩
  have hsplit : (2 : ℚ) ^ (e - 52) = ((2 ^ d : ℤ) : ℚ) * 2 ^ (k - 52) := by
    rw [hd, show (k + (d : ℤ) - 52) = (d : ℤ) + (k - 52) by ring,
      zpow_add₀ (by norm_num : (2 : ℚ) ≠ 0), zpow_natCast]
    push_cast
    rfl
  refine ⟨m * 2 ^ d, ?_, ?_⟩
  · rw [hr, hsplit]
    push_cast
    rw [mul_assoc]
  · have h1 : ((m * 2 ^ d : ℤ) : ℚ) * 2 ^ (k - 52) = (m : ℚ) * 2 ^ (e - 52) := by
      rw [hsplit]; push_cast; ring
    rw [h1, abs_mul, abs_of_pos hu]
    calc (2 : ℚ) ^ k ≤ 2 ^ e := zpow_le_zpow_right₀ (by norm_num) hke
      _ = 2 ^ (52 : ℕ) * 2 ^ (e - 52) := h2e.symm
      _ ≤ |(m : ℚ)| * 2 ^ (e - 52) := mul_le_mul_of_nonneg_right h52 hu.le

end MC34063

namespace MC34063
open Float64 (fin inf nan)

/-! ## Validated values are numbers -/

theorem fin_of_range {x : Float64} {a b : ℚ} (hn : x ≠ nan)
    (h : ¬ (x < fin a ∨ x > fin b)) : ∃ q : ℚ, x = fin q := by
  cases x with
  | fin q => exact ⟨q, rfl⟩
  | inf s =>
    exfalso
    apply h
    cases s
    · right; exact (Float64.fin_lt_inf b false).mpr rfl
    · left; exact (Float64.inf_lt_fin true a).mpr rfl
  | nan => exact absurd rfl hn

theorem validated_numbers (nums : UserValues) (doc : Document)
    (hv : (check_limits nums doc).1 = 0) (hn : nums.noNaN) :
    ∃ n : Numbers, nums = n.toUserValues := by
  obtain ⟨h1, h2, h3, h4, h5⟩ := (check_limits_fst_eq_zero_iff nums doc).mp hv
  obtain ⟨n1, n2, n3, n4, n5⟩ := hn
  obtain ⟨a, ha⟩ := fin_of_range (a := 5) (b := 40) n1 h1
  obtain ⟨b, hb⟩ := fin_of_range (a := -40) (b := 40) n2 (fun h => h2 (Or.inl h))
  obtain ⟨c, hc⟩ := fin_of_range (a := 5) (b := 1000) n3 h3
  obtain ⟨d, hd⟩ := fin_of_range (a := 20) (b := 100) n4 h4
  obtain ⟨e, he⟩ := fin_of_range (a := 1) (b := 50) n5 h5
  refine ⟨⟨a, b, c, d, e⟩, ?_⟩
  rcases nums with ⟨vin, vout, iout, freq, res1⟩
  simp only at ha hb hc hd he
  subst ha hb hc hd he
  rfl

/-! ## Intervals of machine values -/

namespace Binary64

theorem within_iff (a : Binary64) (lo hi : ℚ) :
    a.within lo hi ↔ ∃ q : ℚ, a = ⟨fin q⟩ ∧ lo ≤ q ∧ q ≤ hi := by
  rcases a with ⟨v⟩
  cases v with
  | fin q =>
    constructor
    · intro h; exact ⟨q, rfl, h⟩
    · rintro ⟨q2, h, hb⟩
      have : q = q2 := by
        have := congrArg Binary64.val h
        exact Float64.fin.inj this
      subst this
      exact hb
  | inf s =>
    constructor
    · intro h; exact h.elim
    · rintro ⟨q, h, -⟩
      have := congrArg Binary64.val h
      exact Float64.noConfusion this
  | nan =>
    constructor
    · intro h; exact h.elim
    · rintro ⟨q, h, -⟩
      have := congrArg Binary64.val h
      exact Float64.noConfusion this

theorem within_mk (q lo hi : ℚ) (h1 : lo ≤ q) (h2 : q ≤ hi) :
    (⟨fin q⟩ : Binary64).within lo hi := ⟨h1, h2⟩

theorem within_mono {a : Binary64} {la ha : ℚ} (h : a.within la ha) (lo hi : ℚ)
    (h1 : lo ≤ la) (h2 : ha ≤ hi) : a.within lo hi := by
  obtain ⟨q, rfl, h3, h4⟩ := (within_iff _ _ _).mp h
  exact ⟨le_trans h1 h3, le_trans h4 h2⟩

theorem within_pos {a : Binary64} {lo hi : ℚ} (h : a.within lo hi) (h0 : 0 < lo) :
    a.val.pos := by
  obtain ⟨q, rfl, h3, -⟩ := (within_iff _ _ _).mp h
  exact lt_of_lt_of_le h0 h3

theorem within_finite {a : Binary64} {lo hi : ℚ} (h : a.within lo hi) :
    a.val.isFinite = true := by
  obtain ⟨q, rfl, -, -⟩ := (within_iff _ _ _).mp h
  rfl

/-- The rounding of a value between `l` and `u`. -/
theorem within_rnd (x l u lo hi : ℚ) (h1 : l ≤ x) (h2 : x ≤ u)
    (h : lo ≤ l - 1 / 2 ^ 32 ∧ u + 1 / 2 ^ 32 ≤ hi ∧ -1048576 ≤ l ∧ u ≤ 1048576) :
    (⟨round64 x⟩ : Binary64).within lo hi := by
  obtain ⟨y, e, h3, h4⟩ := round64_within x l u h1 h2 h.2.2.1 h.2.2.2
  rw [e]
  exact ⟨by linarith [h.1], by linarith [h.2.1]⟩

/-- A literal with a point or an exponent. -/
theorem within_lit (m : ℕ) (s : Bool) (e : ℕ) (lo hi : ℚ)
    (h : lo ≤ (OfScientific.ofScientific m s e : ℚ) - 1 / 2 ^ 32 ∧
      (OfScientific.ofScientific m s e : ℚ) + 1 / 2 ^ 32 ≤ hi ∧
      -1048576 ≤ (OfScientific.ofScientific m s e : ℚ) ∧
      (OfScientific.ofScientific m s e : ℚ) ≤ 1048576) :
    (OfScientific.ofScientific m s e : Binary64).within lo hi :=
  within_rnd _ _ _ lo hi (le_refl _) (le_refl _) h

/-- A whole literal. -/
theorem within_nat (n : ℕ) (lo hi : ℚ)
    (h : lo ≤ (n : ℚ) - 1 / 2 ^ 32 ∧ (n : ℚ) + 1 / 2 ^ 32 ≤ hi ∧ -1048576 ≤ (n : ℚ) ∧
      (n : ℚ) ≤ 1048576) :
    (OfNat.ofNat n : Binary64).within lo hi :=
  within_rnd _ _ _ lo hi (le_refl _) (le_refl _) h

theorem within_add {a b : Binary64} {la ha lb hb : ℚ} (h1 : a.within la ha)
    (h2 : b.within lb hb) (lo hi : ℚ)
    (h : lo ≤ la + lb - 1 / 2 ^ 32 ∧ ha + hb + 1 / 2 ^ 32 ≤ hi ∧ -1048576 ≤ la + lb ∧
      ha + hb ≤ 1048576) :
    (a + b).within lo hi := by
  obtain ⟨p, rfl, hp1, hp2⟩ := (within_iff _ _ _).mp h1
  obtain ⟨q, rfl, hq1, hq2⟩ := (within_iff _ _ _).mp h2
  exact within_rnd (p + q) (la + lb) (ha + hb) lo hi (by linarith) (by linarith) h

theorem within_sub {a b : Binary64} {la ha lb hb : ℚ} (h1 : a.within la ha)
    (h2 : b.within lb hb) (lo hi : ℚ)
    (h : lo ≤ la - hb - 1 / 2 ^ 32 ∧ ha - lb + 1 / 2 ^ 32 ≤ hi ∧ -1048576 ≤ la - hb ∧
      ha - lb ≤ 1048576) :
    (a - b).within lo hi := by
  obtain ⟨p, rfl, hp1, hp2⟩ := (within_iff _ _ _).mp h1
  obtain ⟨q, rfl, hq1, hq2⟩ := (within_iff _ _ _).mp h2
  exact within_rnd (p - q) (la - hb) (ha - lb) lo hi (by linarith) (by linarith) h

/-- The product of two values that are not negative. -/
theorem within_mul {a b : Binary64} {la ha lb hb : ℚ} (h1 : a.within la ha)
    (h2 : b.within lb hb) (lo hi : ℚ)
    (h : 0 ≤ la ∧ 0 ≤ lb ∧ lo ≤ la * lb - 1 / 2 ^ 32 ∧ ha * hb + 1 / 2 ^ 32 ≤ hi ∧
      ha * hb ≤ 1048576) :
    (a * b).within lo hi := by
  obtain ⟨p, rfl, hp1, hp2⟩ := (within_iff _ _ _).mp h1
  obtain ⟨q, rfl, hq1, hq2⟩ := (within_iff _ _ _).mp h2
  obtain ⟨n1, n2, n3, n4, n5⟩ := h
  have hp0 : 0 ≤ p := le_trans n1 hp1
  have hq0 : 0 ≤ q := le_trans n2 hq1
  have e1 : la * lb ≤ p * q := mul_le_mul hp1 hq1 n2 hp0
  have e2 : p * q ≤ ha * hb := mul_le_mul hp2 hq2 hq0 (le_trans hp0 hp2)
  have e3 : (0 : ℚ) ≤ la * lb := mul_nonneg n1 n2
  exact within_rnd (p * q) (la * lb) (ha * hb) lo hi e1 e2 ⟨n3, n4, by linarith, n5⟩

/-- The product of two values bounded in magnitude. -/
theorem within_mul_abs {a b : Binary64} {A B : ℚ} (h1 : a.within (-A) A)
    (h2 : b.within (-B) B) (M : ℚ) (h : A * B + 1 / 2 ^ 32 ≤ M ∧ A * B ≤ 1048576) :
    (a * b).within (-M) M := by
  obtain ⟨p, rfl, hp1, hp2⟩ := (within_iff _ _ _).mp h1
  obtain ⟨q, rfl, hq1, hq2⟩ := (within_iff _ _ _).mp h2
  have hp : |p| ≤ A := abs_le.mpr ⟨hp1, hp2⟩
  have hq : |q| ≤ B := abs_le.mpr ⟨hq1, hq2⟩
  have hpq : |p * q| ≤ A * B := by
    rw [abs_mul]
    exact mul_le_mul hp hq (abs_nonneg _) (le_trans (abs_nonneg _) hp)
  obtain ⟨e1, e2⟩ := abs_le.mp hpq
  exact within_rnd (p * q) (-(A * B)) (A * B) (-M) M e1 e2
    ⟨by linarith [h.1], h.1, by linarith [h.2], h.2⟩

/-- The quotient of a value that is not negative by one that is positive. -/
theorem within_div {a b : Binary64} {la ha lb hb : ℚ} (h1 : a.within la ha)
    (h2 : b.within lb hb) (lo hi : ℚ)
    (h : 0 ≤ la ∧ 0 < lb ∧ lo ≤ la / hb - 1 / 2 ^ 32 ∧ ha / lb + 1 / 2 ^ 32 ≤ hi ∧
      ha / lb ≤ 1048576) :
    (a / b).within lo hi := by
  obtain ⟨p, rfl, hp1, hp2⟩ := (within_iff _ _ _).mp h1
  obtain ⟨q, rfl, hq1, hq2⟩ := (within_iff _ _ _).mp h2
  obtain ⟨n1, n2, n3, n4, n5⟩ := h
  have hp0 : 0 ≤ p := le_trans n1 hp1
  have hq0 : 0 < q := lt_of_lt_of_le n2 hq1
  have hb0 : 0 < hb := lt_of_lt_of_le hq0 hq2
  have e1 : la / hb ≤ p / q := div_le_div hp0 hp1 hq0 hq2
  have e2 : p / q ≤ ha / lb := div_le_div (le_trans hp0 hp2) hp2 n2 hq1
  have e3 : (0 : ℚ) ≤ la / hb := div_nonneg n1 hb0.le
  have hd : (⟨fin p⟩ / ⟨fin q⟩ : Binary64) = ⟨round64 (p / q)⟩ := by
    rw [div_def, Float64.fin_div_of_ne _ _ (ne_of_gt hq0)]
    rfl
  rw [hd]
  exact within_rnd (p / q) (la / hb) (ha / lb) lo hi e1 e2 ⟨n3, n4, by linarith, n5⟩

/-- The quotient of a value bounded in magnitude by one that is positive. -/
theorem within_div_abs {a b : Binary64} {A lb hb : ℚ} (h1 : a.within (-A) A)
    (h2 : b.within lb hb) (M : ℚ) (h : 0 < lb ∧ A / lb + 1 / 2 ^ 32 ≤ M ∧ A / lb ≤ 1048576) :
    (a / b).within (-M) M := by
  obtain ⟨p, rfl, hp1, hp2⟩ := (within_iff _ _ _).mp h1
  obtain ⟨q, rfl, hq1, hq2⟩ := (within_iff _ _ _).mp h2
  obtain ⟨n1, n2, n3⟩ := h
  have hq0 : 0 < q := lt_of_lt_of_le n1 hq1
  have hp : |p| ≤ A := abs_le.mpr ⟨hp1, hp2⟩
  have hpq : |p / q| ≤ A / lb := by
    rw [abs_div, abs_of_pos hq0]
    exact div_le_div (le_trans (abs_nonneg _) hp) hp n1 hq1
  obtain ⟨e1, e2⟩ := abs_le.mp hpq
  have hd : (⟨fin p⟩ / ⟨fin q⟩ : Binary64) = ⟨round64 (p / q)⟩ := by
    rw [div_def, Float64.fin_div_of_ne _ _ (ne_of_gt hq0)]
    rfl
  rw [hd]
  exact within_rnd (p / q) (-(A / lb)) (A / lb) (-M) M e1 e2
    ⟨by linarith, n2, by linarith, n3⟩

end Binary64

end MC34063

namespace MC34063
open Float64 (fin inf nan)
open Binary64

/-! ## The models in machine arithmetic -/

theorem lit_0_8 : (0.8 : Binary64).within 0.79 0.81 := within_lit _ _ _ _ _ (by norm_num)
theorem lit_1 : (1 : Binary64).within 0.99 1.01 := within_nat _ _ _ (by norm_num)
theorem lit_1_0 : (1.0 : Binary64).within 0.99 1.01 := within_lit _ _ _ _ _ (by norm_num)
theorem lit_2_0 : (2.0 : Binary64).within 1.99 2.01 := within_lit _ _ _ _ _ (by norm_num)
theorem lit_20 : (20 : Binary64).within 19.9 20.1 := within_nat _ _ _ (by norm_num)
theorem lit_1e3 : (1e3 : Binary64).within 999 1001 := within_lit _ _ _ _ _ (by norm_num)
theorem lit_1_25 : (1.25 : Binary64).within 1.24 1.26 := within_lit _ _ _ _ _ (by norm_num)
theorem lit_0_33 : (0.33 : Binary64).within 0.32 0.34 := within_lit _ _ _ _ _ (by norm_num)
theorem lit_4e_5 : (4e-5 : Binary64).within 3e-5 5e-5 := within_lit _ _ _ _ _ (by norm_num)
theorem lit_5e_3 : (5e-3 : Binary64).within 4e-3 6e-3 := within_lit _ _ _ _ _ (by norm_num)
theorem lit_RIPPLE : (RIPPLE : Binary64).within 0.09 0.11 :=
  within_lit 1 true 1 _ _ (by norm_num)
theorem lit_0_0 : (0.0 : Binary64) = ⟨fin 0⟩ := by
  show (⟨round64 (0.0 : ℚ)⟩ : Binary64) = ⟨fin 0⟩
  rw [show (0.0 : ℚ) = 0 by norm_num, round64_zero]

theorem step_up_binary64 (N : UserValuesOf Binary64) (vin vout : ℚ)
    (e1 : N.vin = ⟨fin vin⟩) (e2 : N.vout = ⟨fin vout⟩) (hvin : 5 ≤ vin) (hle : vin ≤ vout)
    (hvout : vout ≤ 40) (h3 : N.iout.within 5 1000) (h4 : N.freq.within 20 100)
    (h5 : N.res1.within 1 50) :
    (∀ d ∈ step_up_divisors N, d.val.pos) ∧
      ((step_up_results N).map Binary64.val).finite ∧
      (N.vin - 1).within 3.9 39.1 ∧ (step_up_ipeak N).within 5e-3 21.4 ∧
      (step_up_results N).rsc.within 0.01 69 ∧
      (N.iout / 1e3 * ((N.vout + 0.8 - N.vin) / (N.vin - 1) + 1)).within 3e-3 10.6 ∧
      ∃ ib : Binary64, ib.within 4e-3 1.09 ∧
        (step_up_results N).rb = (N.vin - 1 - step_up_ipeak N) * (step_up_results N).rsc / ib := by
  have x1 : N.vin.within vin vin := by rw [e1]; exact within_mk _ _ _ le_rfl le_rfl
  have x2 : N.vout.within vout vout := by rw [e2]; exact within_mk _ _ _ le_rfl le_rfl
  have h1 : N.vin.within 5 40 := within_mono x1 _ _ hvin (by linarith)
  have h2 : N.vout.within 5 40 := within_mono x2 _ _ (by linarith) hvout
  have a1 := within_add x2 lit_0_8 (vout + 0.78) (vout + 0.82)
    (by refine ⟨?_, ?_, ?_, ?_⟩ <;> (norm_num; try linarith))
  have a2 := within_sub a1 x1 0.7 36 (by refine ⟨?_, ?_, ?_, ?_⟩ <;> (norm_num; try linarith))
  have a3 := within_sub h1 lit_1 3.9 39.1 (by norm_num)
  have ratio := within_div a2 a3 0.017 9.3 (by norm_num)
  have r1 := within_add ratio lit_1 1 10.4 (by norm_num)
  have f3 := within_mul h4 lit_1e3 19000 101000 (by norm_num)
  have tontoff := within_div lit_1_0 f3 9e-6 6e-5 (by norm_num)
  have toff := within_div tontoff r1 0 7e-5 (by norm_num)
  have ton := within_sub tontoff toff (-1e-4) 1e-4 (by norm_num)
  have i3 := within_div h3 lit_1e3 4e-3 1.01 (by norm_num)
  have p1 := within_mul i3 r1 3e-3 10.6 (by norm_num)
  have ipeak := within_mul p1 lit_2_0 5e-3 21.4 (by norm_num)
  have b1 := within_div ipeak lit_20 2e-4 1.08 (by norm_num)
  have ib := within_add b1 lit_5e_3 4e-3 1.09 (by norm_num)
  have l1 := within_div a3 ipeak (-7821) 7821 (by norm_num)
  have lmin := within_mul_abs l1 ton 1 (by norm_num)
  have ct := within_mul_abs ton (within_mono lit_4e_5 (-1e-4) 1e-4 (by norm_num) (by norm_num))
    1 (by norm_num)
  have c1 := within_mul_abs (within_mono i3 (-1.01) 1.01 (by norm_num) (by norm_num)) ton 1
    (by norm_num)
  have cout := within_div_abs c1 lit_RIPPLE 12 (by norm_num)
  have rsc := within_div lit_0_33 ipeak 0.01 69 (by norm_num)
  have v1 := within_sub h2 lit_1_25 3.7 38.8 (by norm_num)
  have v2 := within_div v1 lit_1_25 2.9 31.3 (by norm_num)
  have r2 := within_mul v2 h5 2.8 1566 (by norm_num)
  have b2 := within_sub a3 ipeak (-40) 40 (by norm_num)
  have b3 := within_mul_abs b2 (within_mono rsc (-69) 69 (by norm_num) (by norm_num)) 2761
    (by norm_num)
  have rb := within_div_abs b3 ib 690251 (by norm_num)
  refine ⟨?_, ?_, a3, ipeak, rsc, p1, _, ib, rfl⟩
  · intro d hd
    simp only [step_up_divisors, List.mem_cons, List.mem_singleton, List.not_mem_nil,
      or_false] at hd
    rcases hd with rfl | rfl | rfl | rfl | rfl | rfl | rfl | rfl | rfl | rfl | rfl
    · exact within_pos a3 (by norm_num)
    · exact within_pos f3 (by norm_num)
    · exact within_pos r1 (by norm_num)
    · exact within_pos lit_1e3 (by norm_num)
    · exact within_pos lit_20 (by norm_num)
    · exact within_pos ipeak (by norm_num)
    · exact within_pos lit_1e3 (by norm_num)
    · exact within_pos lit_RIPPLE (by norm_num)
    · exact within_pos ipeak (by norm_num)
    · exact within_pos lit_1_25 (by norm_num)
    · exact within_pos ib (by norm_num)
  · exact ⟨within_finite lmin, within_finite ct, within_finite cout, within_finite rsc,
      within_finite r2, within_finite rb⟩

end MC34063

namespace MC34063
open Float64 (fin inf nan)
open Binary64

/-! ## When the `rb` of `step_up` is zero in machine arithmetic -/

/-- A value of magnitude between `2^k` and `B` rounds to a number of magnitude
between `2^k` and `B + 2^-32`. -/
theorem round64_apart (x B : ℚ) (k : ℤ) (hk : -1022 ≤ k) (hlo : (2 : ℚ) ^ k ≤ |x|)
    (hhi : |x| ≤ B) (hB : B ≤ 1048576) :
    ∃ y : ℚ, round64 x = fin y ∧ (2 : ℚ) ^ k ≤ |y| ∧ |y| ≤ B + 1 / 2 ^ 32 := by
  obtain ⟨n, hn, hn2⟩ := round64_grid x k hk hlo (le_trans hhi (le_trans hB (by norm_num)))
  obtain ⟨h1, h2⟩ := abs_le.mp hhi
  have hB0 : 0 ≤ B := le_trans (abs_nonneg _) hhi
  obtain ⟨y, hy, hy1, hy2⟩ := round64_within x (-B) B h1 h2 (by linarith) hB
  have e : (n : ℚ) * 2 ^ (k - 52) = y := Float64.fin.inj (hn.symm.trans hy)
  refine ⟨y, hy, ?_, ?_⟩
  · rw [← e]; exact hn2
  · exact abs_le.mpr ⟨by linarith, by linarith⟩

theorem grid_sub {a b : Binary64} {la ha lb hb : ℚ} (h1 : a.within la ha)
    (h2 : b.within lb hb) (k : ℤ) (hk : -1022 ≤ k)
    (h : (2 : ℚ) ^ k ≤ la - hb ∧ ha - lb ≤ 1048576) :
    ∃ n : ℤ, a - b = ⟨fin ((n : ℚ) * 2 ^ (k - 52))⟩ := by
  obtain ⟨p, rfl, hp1, hp2⟩ := (within_iff _ _ _).mp h1
  obtain ⟨q, rfl, hq1, hq2⟩ := (within_iff _ _ _).mp h2
  have h0 : (0 : ℚ) < 2 ^ k := zpow_pos (by norm_num) k
  have hx : |p - q| = p - q := abs_of_pos (by linarith [h.1])
  obtain ⟨n, hn, -⟩ := round64_grid (p - q) k hk (by rw [hx]; linarith [h.1])
    (by rw [hx]; exact le_trans (by linarith [h.2]) (show (1048576 : ℚ) ≤ 2 ^ 1000 by norm_num))
  exact ⟨n, congrArg Binary64.mk hn⟩

theorem grid_mul {a b : Binary64} {la ha lb hb : ℚ} (h1 : a.within la ha)
    (h2 : b.within lb hb) (k : ℤ) (hk : -1022 ≤ k)
    (h : 0 ≤ la ∧ 0 ≤ lb ∧ (2 : ℚ) ^ k ≤ la * lb ∧ ha * hb ≤ 1048576) :
    ∃ n : ℤ, a * b = ⟨fin ((n : ℚ) * 2 ^ (k - 52))⟩ := by
  obtain ⟨p, rfl, hp1, hp2⟩ := (within_iff _ _ _).mp h1
  obtain ⟨q, rfl, hq1, hq2⟩ := (within_iff _ _ _).mp h2
  obtain ⟨n1, n2, n3, n4⟩ := h
  have h0 : (0 : ℚ) < 2 ^ k := zpow_pos (by norm_num) k
  have hp0 : 0 ≤ p := le_trans n1 hp1
  have hq0 : 0 ≤ q := le_trans n2 hq1
  have e1 : la * lb ≤ p * q := mul_le_mul hp1 hq1 n2 hp0
  have e2 : p * q ≤ ha * hb := mul_le_mul hp2 hq2 hq0 (le_trans hp0 hp2)
  have hx : |p * q| = p * q := abs_of_pos (by linarith)
  obtain ⟨n, hn, -⟩ := round64_grid (p * q) k hk (by rw [hx]; linarith)
    (by rw [hx]; exact le_trans (by linarith) (show (1048576 : ℚ) ≤ 2 ^ 1000 by norm_num))
  exact ⟨n, congrArg Binary64.mk hn⟩

/-- The value `(A - P) * R / I` is zero exactly when `P = A`, for `A` and `P` on the
grids of `vin - 1` and of `ipeak` and `R`, `I` in the ranges of `rsc` and `ib`. -/
theorem rb_zero_iff (A P R I : Binary64) (nA nP : ℤ)
    (hA : A = ⟨fin ((nA : ℚ) * 2 ^ ((1 : ℤ) - 52))⟩)
    (hP : P = ⟨fin ((nP : ℚ) * 2 ^ ((-8 : ℤ) - 52))⟩)
    (wA : A.within 3.9 39.1) (wP : P.within 5e-3 21.4) (wR : R.within 0.01 69)
    (wI : I.within 4e-3 1.09) :
    ((A - P) * R / I).val = fin 0 ↔ P = A := by
  obtain ⟨r, rfl, hr1, hr2⟩ := (within_iff _ _ _).mp wR
  obtain ⟨i, rfl, hi1, hi2⟩ := (within_iff _ _ _).mp wI
  have hi0 : i ≠ 0 := by
    intro e; rw [e] at hi1; norm_num at hi1
  subst hA hP
  have wA2 := (within_iff _ _ _).mp wA
  have wP2 := (within_iff _ _ _).mp wP
  obtain ⟨a, ea, ha1, ha2⟩ := wA2
  obtain ⟨p, ep, hp1, hp2⟩ := wP2
  have ea2 : (nA : ℚ) * 2 ^ ((1 : ℤ) - 52) = a := Float64.fin.inj (congrArg Binary64.val ea)
  have ep2 : (nP : ℚ) * 2 ^ ((-8 : ℤ) - 52) = p := Float64.fin.inj (congrArg Binary64.val ep)
  have hval : ((⟨fin ((nA : ℚ) * 2 ^ ((1 : ℤ) - 52))⟩ - ⟨fin ((nP : ℚ) * 2 ^ ((-8 : ℤ) - 52))⟩ :
      Binary64) * ⟨fin r⟩ / ⟨fin i⟩).val =
      ((round64 ((nA : ℚ) * 2 ^ ((1 : ℤ) - 52) - (nP : ℚ) * 2 ^ ((-8 : ℤ) - 52)) * fin r).rnd /
        fin i).rnd := rfl
  rw [hval]
  have hdiff : (nA : ℚ) * 2 ^ ((1 : ℤ) - 52) - (nP : ℚ) * 2 ^ ((-8 : ℤ) - 52) =
      ((nA * 512 - nP : ℤ) : ℚ) * (1 / 2 ^ 60) := by
    push_cast
    norm_num
    ring
  constructor
  · intro h
    by_contra hne
    have hj : nA * 512 - nP ≠ 0 := by
      intro e0
      apply hne
      have : (nA : ℚ) * 2 ^ ((1 : ℤ) - 52) - (nP : ℚ) * 2 ^ ((-8 : ℤ) - 52) = 0 := by
        rw [hdiff, e0]; simp
      have e3 : (nP : ℚ) * 2 ^ ((-8 : ℤ) - 52) = (nA : ℚ) * 2 ^ ((1 : ℤ) - 52) := by linarith
      rw [e3]
    have hj1 : (1 : ℚ) ≤ |((nA * 512 - nP : ℤ) : ℚ)| := by
      have : (1 : ℤ) ≤ |nA * 512 - nP| := Int.one_le_abs hj
      exact_mod_cast this
    have hx8 : (2 : ℚ) ^ (-60 : ℤ) ≤
        |(nA : ℚ) * 2 ^ ((1 : ℤ) - 52) - (nP : ℚ) * 2 ^ ((-8 : ℤ) - 52)| := by
      rw [hdiff, abs_mul, abs_of_pos (by positivity : (0 : ℚ) < 1 / 2 ^ 60)]
      have : (2 : ℚ) ^ (-60 : ℤ) = 1 * (1 / 2 ^ 60) := by norm_num
      rw [this]
      exact mul_le_mul_of_nonneg_right hj1 (by positivity)
    have hx8b : |(nA : ℚ) * 2 ^ ((1 : ℤ) - 52) - (nP : ℚ) * 2 ^ ((-8 : ℤ) - 52)| ≤ 40 := by
      rw [ea2, ep2]
      exact abs_le.mpr ⟨by norm_num at ha1 hp2 ⊢; linarith, by norm_num at ha2 hp1 ⊢; linarith⟩
    obtain ⟨y8, e8, l8, u8⟩ := round64_apart _ 40 (-60) (by norm_num) hx8 hx8b (by norm_num)
    rw [e8, Float64.fin_mul, Float64.rnd_fin] at h
    have hr0 : 0 < r := by norm_num at hr1; linarith
    have hx9 : (2 : ℚ) ^ (-67 : ℤ) ≤ |y8 * r| := by
      rw [abs_mul, abs_of_pos hr0]
      have h1 : (2 : ℚ) ^ (-67 : ℤ) = 2 ^ (-60 : ℤ) * (1 / 128) := by norm_num
      rw [h1]
      exact mul_le_mul l8 (by norm_num at hr1 ⊢; linarith) (by norm_num) (abs_nonneg _)
    have hx9b : |y8 * r| ≤ 2830 := by
      rw [abs_mul, abs_of_pos hr0]
      have : |y8| * r ≤ (40 + 1 / 2 ^ 32) * 69 :=
        mul_le_mul u8 hr2 hr0.le (by norm_num)
      norm_num at this ⊢
      linarith
    obtain ⟨y9, e9, l9, u9⟩ := round64_apart _ 2830 (-67) (by norm_num) hx9 hx9b (by norm_num)
    rw [e9, Float64.fin_div_of_ne _ _ hi0, Float64.rnd_fin] at h
    have hi00 : 0 < i := by norm_num at hi1; linarith
    have hx10 : (2 : ℚ) ^ (-68 : ℤ) ≤ |y9 / i| := by
      rw [abs_div, abs_of_pos hi00, le_div_iff₀ hi00]
      have h1 : (2 : ℚ) ^ (-68 : ℤ) * i ≤ 2 ^ (-68 : ℤ) * 2 :=
        mul_le_mul_of_nonneg_left (by norm_num at hi2 ⊢; linarith) (by positivity)
      have h2 : (2 : ℚ) ^ (-68 : ℤ) * 2 = 2 ^ (-67 : ℤ) := by norm_num
      linarith
    have hx10b : |y9 / i| ≤ 707501 := by
      rw [abs_div, abs_of_pos hi00, div_le_iff₀ hi00]
      have : (707501 : ℚ) * (4e-3) ≤ 707501 * i := mul_le_mul_of_nonneg_left hi1 (by norm_num)
      norm_num at this u9 ⊢
      linarith
    obtain ⟨y10, e10, l10, -⟩ := round64_apart _ 707501 (-68) (by norm_num) hx10 hx10b
      (by norm_num)
    rw [e10] at h
    have : y10 = 0 := Float64.fin.inj h
    rw [this] at l10
    norm_num at l10
  · intro h
    have e3 : (nP : ℚ) * 2 ^ ((-8 : ℤ) - 52) = (nA : ℚ) * 2 ^ ((1 : ℤ) - 52) :=
      Float64.fin.inj (congrArg Binary64.val h)
    rw [e3, sub_self, round64_zero, Float64.fin_mul, zero_mul, Float64.rnd_fin, round64_zero,
      Float64.fin_div_of_ne _ _ hi0, zero_div, Float64.rnd_fin, round64_zero]

end MC34063

namespace MC34063
open Float64 (fin inf nan)

/-! ## Machine arithmetic on concrete inputs -/

/-- In machine arithmetic, at `vin = 6.5, vout = 25.2, iout = 605`: the values of the
fields, `vin - 1`, `ipeak`, `rb`, and the two sides of
`iout * (vout - 0.2) / 500 = (vin - 1)^2`. -/
theorem step_up_binary64_at_cancellation :
    (Numbers.toBinary64 ⟨6.5, 25.2, 605, 50, 10⟩) =
      ⟨⟨fin (13 / 2)⟩, ⟨fin (7093169413108531 / 281474976710656)⟩, ⟨fin 605⟩,
        ⟨fin 50⟩, ⟨fin 10⟩⟩ ∧
    (Numbers.toBinary64 ⟨6.5, 25.2, 605, 50, 10⟩).vin - 1 = (⟨fin (11 / 2)⟩ : Binary64) ∧
    step_up_ipeak (Numbers.toBinary64 ⟨6.5, 25.2, 605, 50, 10⟩) =
      ⟨fin (6192449487634431 / 1125899906842624)⟩ ∧
    (step_up_results (Numbers.toBinary64 ⟨6.5, 25.2, 605, 50, 10⟩)).rb =
      ⟨fin (3860228252031855 / 20282409603651670423947251286016)⟩ ∧
    (Numbers.toBinary64 ⟨6.5, 25.2, 605, 50, 10⟩).iout *
        ((Numbers.toBinary64 ⟨6.5, 25.2, 605, 50, 10⟩).vout - 0.2) / 500 =
      (⟨fin (121 / 4)⟩ : Binary64) ∧
    ((Numbers.toBinary64 ⟨6.5, 25.2, 605, 50, 10⟩).vin - 1) *
        ((Numbers.toBinary64 ⟨6.5, 25.2, 605, 50, 10⟩).vin - 1) =
      (⟨fin (121 / 4)⟩ : Binary64) := by
  have s1 : round64 (6.5 : ℚ) = fin (13 / 2) := by
    rw [round64_eq _ (2) 7318349394477056 (by norm_num) (by norm_num [abs_of_pos])
      (by norm_num [abs_of_pos]) (by norm_num [abs_lt])
      (by norm_num [abs_of_pos])]
    norm_num
  have s2 : round64 (25.2 : ℚ) = fin (7093169413108531 / 281474976710656) := by
    rw [round64_eq _ (4) 7093169413108531 (by norm_num) (by norm_num [abs_of_pos])
      (by norm_num [abs_of_pos]) (by norm_num [abs_lt])
      (by norm_num [abs_of_pos])]
    norm_num
  have s3 : round64 (605 : ℚ) = fin (605) := by
    rw [round64_eq _ (9) 5321636278435840 (by norm_num) (by norm_num [abs_of_pos])
      (by norm_num [abs_of_pos]) (by norm_num [abs_lt])
      (by norm_num [abs_of_pos])]
    norm_num
  have s4 : round64 (50 : ℚ) = fin (50) := by
    rw [round64_eq _ (5) 7036874417766400 (by norm_num) (by norm_num [abs_of_pos])
      (by norm_num [abs_of_pos]) (by norm_num [abs_lt])
      (by norm_num [abs_of_pos])]
    norm_num
  have s5 : round64 (10 : ℚ) = fin (10) := by
    rw [round64_eq _ (3) 5629499534213120 (by norm_num) (by norm_num [abs_of_pos])
      (by norm_num [abs_of_pos]) (by norm_num [abs_lt])
      (by norm_num [abs_of_pos])]
    norm_num
  have s6 : round64 (0.8 : ℚ) = fin (3602879701896397 / 4503599627370496) := by
    rw [round64_eq _ (-1) 7205759403792794 (by norm_num) (by norm_num [abs_of_pos])
      (by norm_num [abs_of_pos]) (by norm_num [abs_lt])
      (by norm_num [abs_of_pos])]
    norm_num
  have s7 : round64 (1 : ℚ) = fin (1) := by
    rw [round64_eq _ (0) 4503599627370496 (by norm_num) (by norm_num [abs_of_pos])
      (by norm_num [abs_of_pos]) (by norm_num [abs_lt])
      (by norm_num [abs_of_pos])]
    norm_num
  have s8 : round64 (1e3 : ℚ) = fin (1000) := by
    rw [round64_eq _ (9) 8796093022208000 (by norm_num) (by norm_num [abs_of_pos])
      (by norm_num [abs_of_pos]) (by norm_num [abs_lt])
      (by norm_num [abs_of_pos])]
    norm_num
  have s9 : round64 (2.0 : ℚ) = fin (2) := by
    rw [round64_eq _ (1) 4503599627370496 (by norm_num) (by norm_num [abs_of_pos])
      (by norm_num [abs_of_pos]) (by norm_num [abs_lt])
      (by norm_num [abs_of_pos])]
    norm_num
  have s10 : round64 (20 : ℚ) = fin (20) := by
    rw [round64_eq _ (4) 5629499534213120 (by norm_num) (by norm_num [abs_of_pos])
      (by norm_num [abs_of_pos]) (by norm_num [abs_lt])
      (by norm_num [abs_of_pos])]
    norm_num
  have s11 : round64 (5e-3 : ℚ) = fin (5764607523034235 / 1152921504606846976) := by
    rw [round64_eq _ (-8) 5764607523034235 (by norm_num) (by norm_num [abs_of_pos])
      (by norm_num [abs_of_pos]) (by norm_num [abs_lt])
      (by norm_num [abs_of_pos])]
    norm_num
  have s12 : round64 (0.33 : ℚ) = fin (5944751508129055 / 18014398509481984) := by
    rw [round64_eq _ (-2) 5944751508129055 (by norm_num) (by norm_num [abs_of_pos])
      (by norm_num [abs_of_pos]) (by norm_num [abs_lt])
      (by norm_num [abs_of_pos])]
    norm_num
  have s13 : round64 (7093169413108531 / 281474976710656 + 3602879701896397 / 4503599627370496) =
      fin (26) := by
    rw [round64_eq _ (4) 7318349394477056 (by norm_num) (by norm_num [abs_of_pos])
      (by norm_num [abs_of_pos]) (by norm_num [abs_lt])
      (by norm_num [abs_of_pos])]
    norm_num
  have s14 : round64 (26 - (13 / 2)) = fin (39 / 2) := by
    rw [round64_eq _ (4) 5488762045857792 (by norm_num) (by norm_num [abs_of_pos])
      (by norm_num [abs_of_pos]) (by norm_num [abs_lt])
      (by norm_num [abs_of_pos])]
    norm_num
  have s15 : round64 (13 / 2 - 1) = fin (11 / 2) := by
    rw [round64_eq _ (2) 6192449487634432 (by norm_num) (by norm_num [abs_of_pos])
      (by norm_num [abs_of_pos]) (by norm_num [abs_lt])
      (by norm_num [abs_of_pos])]
    norm_num
  have s16 : round64 (39 / 2 / (11 / 2)) = fin (7983653884884061 / 2251799813685248) := by
    rw [round64_eq _ (1) 7983653884884061 (by norm_num) (by norm_num [abs_of_pos])
      (by norm_num [abs_of_pos]) (by norm_num [abs_lt])
      (by norm_num [abs_of_pos])]
    norm_num
  have s17 : round64 (7983653884884061 / 2251799813685248 + 1) =
      fin (2558863424642327 / 562949953421312) := by
    rw [round64_of _ (2) 5117726849284654 (by norm_num) (by norm_num [abs_of_pos])
      (by norm_num [abs_of_pos]) (by rw [roundEven_tie _ 5117726849284654 (by norm_num)]; decide)
      (by norm_num [abs_of_pos])]
    norm_num
  have s18 : round64 (605 / 1000) = fin (1362338887279575 / 2251799813685248) := by
    rw [round64_eq _ (-1) 5449355549118300 (by norm_num) (by norm_num [abs_of_pos])
      (by norm_num [abs_of_pos]) (by norm_num [abs_lt])
      (by norm_num [abs_of_pos])]
    norm_num
  have s19 : round64 (1362338887279575 / 2251799813685248 * (2558863424642327 / 562949953421312)) =
      fin (6192449487634431 / 2251799813685248) := by
    rw [round64_eq _ (1) 6192449487634431 (by norm_num) (by norm_num [abs_of_pos])
      (by norm_num [abs_of_pos]) (by norm_num [abs_lt])
      (by norm_num [abs_of_pos])]
    norm_num
  have s20 : round64 (6192449487634431 / 2251799813685248 * 2) =
      fin (6192449487634431 / 1125899906842624) := by
    rw [round64_eq _ (2) 6192449487634431 (by norm_num) (by norm_num [abs_of_pos])
      (by norm_num [abs_of_pos]) (by norm_num [abs_lt])
      (by norm_num [abs_of_pos])]
    norm_num
  have s21 : round64 (6192449487634431 / 1125899906842624 / 20) =
      fin (4953959590107545 / 18014398509481984) := by
    rw [round64_eq _ (-2) 4953959590107545 (by norm_num) (by norm_num [abs_of_pos])
      (by norm_num [abs_of_pos]) (by norm_num [abs_lt])
      (by norm_num [abs_of_pos])]
    norm_num
  have s22 : round64 (4953959590107545 / 18014398509481984 + 5764607523034235 / 1152921504606846976) =
      fin (5044031582654955 / 18014398509481984) := by
    rw [round64_eq _ (-2) 5044031582654955 (by norm_num) (by norm_num [abs_of_pos])
      (by norm_num [abs_of_pos]) (by norm_num [abs_lt])
      (by norm_num [abs_of_pos])]
    norm_num
  have s23 : round64 (5944751508129055 / 18014398509481984 / (6192449487634431 / 1125899906842624)) =
      fin (4323455642275677 / 72057594037927936) := by
    rw [round64_eq _ (-5) 8646911284551354 (by norm_num) (by norm_num [abs_of_pos])
      (by norm_num [abs_of_pos]) (by norm_num [abs_lt])
      (by norm_num [abs_of_pos])]
    norm_num
  have s24 : round64 (11 / 2 - (6192449487634431 / 1125899906842624)) =
      fin (1 / 1125899906842624) := by
    rw [round64_eq _ (-50) 4503599627370496 (by norm_num) (by norm_num [abs_of_pos])
      (by norm_num [abs_of_pos]) (by norm_num [abs_lt])
      (by norm_num [abs_of_pos])]
    norm_num
  have s25 : round64 (1 / 1125899906842624 * (4323455642275677 / 72057594037927936)) =
      fin (4323455642275677 / 81129638414606681695789005144064) := by
    rw [round64_eq _ (-55) 8646911284551354 (by norm_num) (by norm_num [abs_of_pos])
      (by norm_num [abs_of_pos]) (by norm_num [abs_lt])
      (by norm_num [abs_of_pos])]
    norm_num
  have s26 : round64 (4323455642275677 / 81129638414606681695789005144064 / (5044031582654955 / 18014398509481984)) =
      fin (3860228252031855 / 20282409603651670423947251286016) := by
    rw [round64_eq _ (-53) 7720456504063710 (by norm_num) (by norm_num [abs_of_pos])
      (by norm_num [abs_of_pos]) (by norm_num [abs_lt])
      (by norm_num [abs_of_pos])]
    norm_num
  have s27 : round64 (0.2 : ℚ) = fin (3602879701896397 / 18014398509481984) := by
    rw [round64_eq _ (-3) 7205759403792794 (by norm_num) (by norm_num [abs_of_pos])
      (by norm_num [abs_of_pos]) (by norm_num [abs_lt])
      (by norm_num [abs_of_pos])]
    norm_num
  have s28 : round64 (500 : ℚ) = fin (500) := by
    rw [round64_eq _ (8) 8796093022208000 (by norm_num) (by norm_num [abs_of_pos])
      (by norm_num [abs_of_pos]) (by norm_num [abs_lt])
      (by norm_num [abs_of_pos])]
    norm_num
  have s29 : round64 (7093169413108531 / 281474976710656 - (3602879701896397 / 18014398509481984)) =
      fin (25) := by
    rw [round64_eq _ (4) 7036874417766400 (by norm_num) (by norm_num [abs_of_pos])
      (by norm_num [abs_of_pos]) (by norm_num [abs_lt])
      (by norm_num [abs_of_pos])]
    norm_num
  have s30 : round64 (605 * 25) = fin (15125) := by
    rw [round64_eq _ (13) 8315056685056000 (by norm_num) (by norm_num [abs_of_pos])
      (by norm_num [abs_of_pos]) (by norm_num [abs_lt])
      (by norm_num [abs_of_pos])]
    norm_num
  have s31 : round64 (15125 / 500) = fin (121 / 4) := by
    rw [round64_eq _ (4) 8514618045497344 (by norm_num) (by norm_num [abs_of_pos])
      (by norm_num [abs_of_pos]) (by norm_num [abs_lt])
      (by norm_num [abs_of_pos])]
    norm_num
  have s32 : round64 (11 / 2 * (11 / 2)) = fin (121 / 4) := by
    rw [round64_eq _ (4) 8514618045497344 (by norm_num) (by norm_num [abs_of_pos])
      (by norm_num [abs_of_pos]) (by norm_num [abs_lt])
      (by norm_num [abs_of_pos])]
    norm_num
  have n1 : (11 / 2 : ℚ) ≠ 0 := by norm_num
  have n2 : (1000 : ℚ) ≠ 0 := by norm_num
  have n3 : (20 : ℚ) ≠ 0 := by norm_num
  have n4 : (6192449487634431 / 1125899906842624 : ℚ) ≠ 0 := by norm_num
  have n5 : (5044031582654955 / 18014398509481984 : ℚ) ≠ 0 := by norm_num
  have n6 : (500 : ℚ) ≠ 0 := by norm_num
  refine ⟨?_, ?_, ?_, ?_, ?_, ?_⟩ <;>
  simp only [
    step_up_ipeak, step_up_results, Numbers.toBinary64, Binary64.ofDecimal, Binary64.add_def,
    Binary64.sub_def, Binary64.mul_def, Binary64.div_def, Binary64.ofScientific_def,
    Binary64.ofNat_def, Nat.cast_ofNat, Nat.cast_one, Float64.fin_add, Float64.fin_sub,
    Float64.fin_mul, Float64.rnd_fin, Float64.fin_div_of_ne _ _ n1,
    Float64.fin_div_of_ne _ _ n2, Float64.fin_div_of_ne _ _ n3, Float64.fin_div_of_ne _ _ n4,
    Float64.fin_div_of_ne _ _ n5, Float64.fin_div_of_ne _ _ n6, s1, s2, s3, s4, s5, s6, s7, s8,
    s9, s10, s11, s12, s13, s14, s15, s16, s17, s18, s19, s20, s21, s22, s23, s24, s25, s26,
    s27, s28, s29, s30, s31, s32]

/-- The constant expression `8 * RIPPLE`, which Go evaluates exactly before
rounding it, is in machine arithmetic the same `float64`: the one nearest to 0.8. -/
theorem eight_RIPPLE_binary64 :
    (8 * RIPPLE : Binary64) = Binary64.ofDecimal 0.8 := by
  have s1 : round64 (8 : ℚ) = fin (8) := by
    rw [round64_eq _ (3) 4503599627370496 (by norm_num) (by norm_num [abs_of_pos])
      (by norm_num [abs_of_pos]) (by norm_num [abs_lt])
      (by norm_num [abs_of_pos])]
    norm_num
  have s2 : round64 (0.1 : ℚ) = fin (3602879701896397 / 36028797018963968) := by
    rw [round64_eq _ (-4) 7205759403792794 (by norm_num) (by norm_num [abs_of_pos])
      (by norm_num [abs_of_pos]) (by norm_num [abs_lt])
      (by norm_num [abs_of_pos])]
    norm_num
  have s3 : round64 (8 * (3602879701896397 / 36028797018963968)) =
      fin (3602879701896397 / 4503599627370496) := by
    rw [round64_eq _ (-1) 7205759403792794 (by norm_num) (by norm_num [abs_of_pos])
      (by norm_num [abs_of_pos]) (by norm_num [abs_lt])
      (by norm_num [abs_of_pos])]
    norm_num
  have s4 : round64 (0.8 : ℚ) = fin (3602879701896397 / 4503599627370496) := by
    rw [round64_eq _ (-1) 7205759403792794 (by norm_num) (by norm_num [abs_of_pos])
      (by norm_num [abs_of_pos]) (by norm_num [abs_lt])
      (by norm_num [abs_of_pos])]
    norm_num
  simp only [
    RIPPLE, Numbers.toBinary64, Binary64.ofDecimal, Binary64.add_def, Binary64.sub_def,
    Binary64.mul_def, Binary64.div_def, Binary64.ofScientific_def, Binary64.ofNat_def,
    Nat.cast_ofNat, Nat.cast_one, Float64.fin_add, Float64.fin_sub, Float64.fin_mul,
    Float64.rnd_fin, s1, s2, s3, s4]

end MC34063

namespace MC34063
open Float64 (fin inf nan)
open Binary64

/-! ## Validated machine values -/

theorem fin_lt_zero (a : ℚ) : fin a < (0 : Float64) ↔ a < 0 := by
  show fin a < fin ((0 : ℕ) : ℚ) ↔ _
  rw [Float64.fin_lt_fin]
  simp

theorem machine_numbers (N : UserValuesOf Binary64) (doc : Document)
    (hv : (check_limits (N.map Binary64.val) doc).1 = 0)
    (hn : (N.map Binary64.val).noNaN) :
    ∃ n : Numbers,
      N = n.toUserValues.map Binary64.mk ∧ (check_limits n.toUserValues doc).1 = 0 := by
  obtain ⟨n, e⟩ := validated_numbers _ doc hv hn
  refine ⟨n, ?_, by rw [← e]; exact hv⟩
  rcases N with ⟨⟨a⟩, ⟨b⟩, ⟨c⟩, ⟨d⟩, ⟨f⟩⟩
  simp only [UserValuesOf.map, Numbers.toUserValues, UserValuesOf.mk.injEq] at e ⊢
  obtain ⟨e1, e2, e3, e4, e5⟩ := e
  subst e1 e2 e3 e4 e5
  exact ⟨rfl, rfl, rfl, rfl, rfl⟩

theorem step_up_rb_binary64 (N : UserValuesOf Binary64) (vin vout : ℚ)
    (e1 : N.vin = ⟨fin vin⟩) (e2 : N.vout = ⟨fin vout⟩) (hvin : 5 ≤ vin) (hle : vin ≤ vout)
    (hvout : vout ≤ 40) (h3 : N.iout.within 5 1000) (h4 : N.freq.within 20 100)
    (h5 : N.res1.within 1 50) :
    (step_up_results N).rb.val = fin 0 ↔ step_up_ipeak N = N.vin - 1 := by
  obtain ⟨-, -, a3, ipeak, rsc, p1, ib, wib, erb⟩ :=
    step_up_binary64 N vin vout e1 e2 hvin hle hvout h3 h4 h5
  have x1 : N.vin.within 5 40 := by
    rw [e1]; exact within_mk _ _ _ hvin (by linarith)
  obtain ⟨nA, hA⟩ := grid_sub x1 lit_1 1 (by norm_num) (by norm_num)
  obtain ⟨nP, hP⟩ := grid_mul p1 lit_2_0 (-8) (by norm_num) (by norm_num)
  rw [erb]
  exact rb_zero_iff _ _ _ _ nA nP hA hP a3 ipeak rsc wib

theorem parseDecimal_6_5 : parseDecimal "6.5" = (fin 6.5, none) := by
  simp [parseDecimal, readSpecial, readUnsigned, readDigits]
  norm_num

theorem parseDecimal_25_2 : parseDecimal "25.2" = (fin 25.2, none) := by
  simp [parseDecimal, readSpecial, readUnsigned, readDigits]
  norm_num

theorem get_user_values_6_5 :
    get_user_values decimalLibrary (pageOf "6.5" "25.2" "605" "50" "10") =
      { vin := 6.5, vout := 25.2, iout := 605, freq := 50, res1 := 10 } := by
  have h1 : (parseDecimal "6.5").1 = (6.5 : Float64) := by rw [parseDecimal_6_5]; rfl
  have h2 : (parseDecimal "25.2").1 = (25.2 : Float64) := by rw [parseDecimal_25_2]; rfl
  have h3 : (parseDecimal "605").1 = (605 : Float64) := by decide
  have h4 : (parseDecimal "50").1 = (50 : Float64) := by decide
  have h5 : (parseDecimal "10").1 = (10 : Float64) := by decide
  show ({ vin := (parseDecimal "6.5").1, vout := (parseDecimal "25.2").1,
          iout := (parseDecimal "605").1, freq := (parseDecimal "50").1,
          res1 := (parseDecimal "10").1 } : UserValues) = _
  rw [h1, h2, h3, h4, h5]

/-! ## C4: the divisors in machine arithmetic -/

/-- C6 (as the code has it): `step_down` and `inverter` set `rb` to 0 for every input,
in machine and in exact arithmetic.  For an input that passes the checks, holds no NaN
and goes to `step_up`: in machine arithmetic `rb` is a number, and it is 0 exactly when
the computed `ipeak` equals the computed `vin - 1`; in exact arithmetic `rb` is 0
exactly when `ipeak = vin - 1`, which is exactly when
`iout * (vout - 0.2) / 500 = (vin - 1)^2`.  That identity is the criterion of exact
arithmetic only. -/
theorem C6_rb_population (N : UserValuesOf Binary64) (doc : Document) :
    (∀ M : UserValuesOf Binary64,
      (step_down_results M).rb = ⟨fin 0⟩ ∧ (inverter_results M).rb = ⟨fin 0⟩) ∧
    (∀ nums : UserValues,
      (step_down_results nums).rb = fin 0 ∧ (inverter_results nums).rb = fin 0) ∧
    ((check_limits (N.map Binary64.val) doc).1 = 0 → (N.map Binary64.val).noNaN →
      ¬ N.vout.val < 0 → ¬ N.vout.val < N.vin.val →
      (step_up_results N).rb.val.isFinite ∧
      ((step_up_results N).rb.val = fin 0 ↔ step_up_ipeak N = N.vin - 1) ∧
      ((step_up_results N).rb.val ≠ fin 0 ↔ step_up_ipeak N ≠ N.vin - 1) ∧
      ∃ vin vout iout : ℚ,
        N.vin.val = fin vin ∧ N.vout.val = fin vout ∧ N.iout.val = fin iout ∧
        ((step_up_results (N.map Binary64.val)).rb = fin 0 ↔
          step_up_ipeak (N.map Binary64.val) = fin (vin - 1)) ∧
        (step_up_ipeak (N.map Binary64.val) = fin (vin - 1) ↔
          iout * (vout - 0.2) / 500 = (vin - 1) ^ 2)) := by
  have h00 : (0.0 : Float64) = fin 0 := by
    rw [Float64.ofScientific_eq]; norm_num
  refine ⟨fun M => ⟨lit_0_0, lit_0_0⟩, fun nums => ⟨h00, h00⟩, ?_⟩
  intro hv hn h0 h1
  obtain ⟨n, rfl, hv2⟩ := machine_numbers N doc hv hn
  obtain ⟨⟨hvin1, hvin2⟩, ⟨hvo1, hvo2, hvo3⟩, ⟨hi1, hi2⟩, ⟨hf1, hf2⟩, ⟨hr1, hr2⟩⟩ :=
    (check_limits_numbers n doc).mp hv2
  have w3 : (n.toUserValues.map Binary64.mk).iout.within 5 1000 := within_mk _ _ _ hi1 hi2
  have w4 : (n.toUserValues.map Binary64.mk).freq.within 20 100 := within_mk _ _ _ hf1 hf2
  have w5 : (n.toUserValues.map Binary64.mk).res1.within 1 50 := within_mk _ _ _ hr1 hr2
  have hle : n.vin ≤ n.vout :=
    not_lt.mp (fun h => h1 ((Float64.fin_lt_fin _ _).mpr h))
  obtain ⟨-, hf, -⟩ := step_up_binary64 _ n.vin n.vout rfl rfl hvin1 hle hvo2 w3 w4 w5
  have hiff := step_up_rb_binary64 _ n.vin n.vout rfl rfl hvin1 hle hvo2 w3 w4 w5
  obtain ⟨rb, ipeak, hrb, hip, -, hz, -, hq, -⟩ := step_up_rb_facts n doc hv2 hle
  have hmap : (n.toUserValues.map Binary64.mk).map Binary64.val = n.toUserValues := rfl
  refine ⟨hf.2.2.2.2.2, hiff, not_congr hiff, n.vin, n.vout, n.iout, rfl, rfl, rfl, ?_, ?_⟩
  · rw [hmap, hrb, hip, Float64.fin.injEq, Float64.fin.injEq]
    exact hz
  · rw [hmap, hip, Float64.fin.injEq]
    exact hq

/-- Scenario E (`vin = 12, vout = 12`) goes to `step_up`, and its `rb` in machine
arithmetic is a number. -/
theorem C6_rb_population_witness :
    (check_limits
      ((⟨⟨fin 12⟩, ⟨fin 12⟩, ⟨fin 500⟩, ⟨fin 50⟩, ⟨fin 10⟩⟩ : UserValuesOf Binary64).map
        Binary64.val) (pageOf "12" "12" "500" "50" "10")).1 = 0 ∧
    ((⟨⟨fin 12⟩, ⟨fin 12⟩, ⟨fin 500⟩, ⟨fin 50⟩, ⟨fin 10⟩⟩ : UserValuesOf Binary64).map
      Binary64.val).noNaN ∧
    (step_up_results
      (⟨⟨fin 12⟩, ⟨fin 12⟩, ⟨fin 500⟩, ⟨fin 50⟩, ⟨fin 10⟩⟩ : UserValuesOf Binary64)).rb.val.isFinite
      = true :=
  ⟨by decide, by decide,
    ((C6_rb_population ⟨⟨fin 12⟩, ⟨fin 12⟩, ⟨fin 500⟩, ⟨fin 50⟩, ⟨fin 10⟩⟩
      (pageOf "12" "12" "500" "50" "10")).2.2
        (by decide) (by decide) (by decide) (by decide)).1⟩

/-- C6 fails at `vin = 6.5, vout = 25.2, iout = 605, freq = 50, res1 = 10`: the input
passes the checks and `calculate` runs `step_up`; `iout * (vout - 0.2) / 500` and
`(vin - 1)^2` are both 30.25, on the typed values in exact arithmetic and on the
`float64` nearest to them in machine arithmetic; yet in machine arithmetic `ipeak` is
one unit in the last place below `vin - 1 = 5.5` and `rb` is about `1.9e-16`, not 0. -/
theorem C6_counterexample :
    get_user_values decimalLibrary (pageOf "6.5" "25.2" "605" "50" "10") =
      { vin := 6.5, vout := 25.2, iout := 605, freq := 50, res1 := 10 } ∧
    (check_limits { vin := 6.5, vout := 25.2, iout := 605, freq := 50, res1 := 10 }
        (clearFieldsErrors (pageOf "6.5" "25.2" "605" "50" "10"))).1 = 0 ∧
    (calculate decimalLibrary (pageOf "6.5" "25.2" "605" "50" "10")).innerHTML
      "regulator-name" = "Step-Up regulator" ∧
    (605 : ℚ) * (25.2 - 0.2) / 500 = (6.5 - 1) ^ 2 ∧
    (check_limits ((Numbers.toBinary64 ⟨6.5, 25.2, 605, 50, 10⟩).map Binary64.val)
        (clearFieldsErrors (pageOf "6.5" "25.2" "605" "50" "10"))).1 = 0 ∧
    ¬ (Numbers.toBinary64 ⟨6.5, 25.2, 605, 50, 10⟩).vout.val < 0 ∧
    ¬ (Numbers.toBinary64 ⟨6.5, 25.2, 605, 50, 10⟩).vout.val <
      (Numbers.toBinary64 ⟨6.5, 25.2, 605, 50, 10⟩).vin.val ∧
    (Numbers.toBinary64 ⟨6.5, 25.2, 605, 50, 10⟩).iout *
        ((Numbers.toBinary64 ⟨6.5, 25.2, 605, 50, 10⟩).vout - 0.2) / 500 =
      ((Numbers.toBinary64 ⟨6.5, 25.2, 605, 50, 10⟩).vin - 1) *
        ((Numbers.toBinary64 ⟨6.5, 25.2, 605, 50, 10⟩).vin - 1) ∧
    (step_up_results (Numbers.toBinary64 ⟨6.5, 25.2, 605, 50, 10⟩)).rb =
      ⟨fin (3860228252031855 / 20282409603651670423947251286016)⟩ ∧
    (step_up_results (Numbers.toBinary64 ⟨6.5, 25.2, 605, 50, 10⟩)).rb.val ≠ fin 0 ∧
    step_up_ipeak (Numbers.toBinary64 ⟨6.5, 25.2, 605, 50, 10⟩) ≠
      (Numbers.toBinary64 ⟨6.5, 25.2, 605, 50, 10⟩).vin - 1 := by
  have hv : (check_limits { vin := 6.5, vout := 25.2, iout := 605, freq := 50, res1 := 10 }
        (clearFieldsErrors (pageOf "6.5" "25.2" "605" "50" "10"))).1 = 0 :=
    (check_limits_numbers { vin := 6.5, vout := 25.2, iout := 605, freq := 50, res1 := 10 }
      _).mpr (by norm_num)
  obtain ⟨eN, ea, ep, erb, el, er⟩ := step_up_binary64_at_cancellation
  have hvm : (check_limits ((Numbers.toBinary64 ⟨6.5, 25.2, 605, 50, 10⟩).map Binary64.val)
        (clearFieldsErrors (pageOf "6.5" "25.2" "605" "50" "10"))).1 = 0 := by
    rw [eN]
    exact (check_limits_numbers
      { vin := 13 / 2, vout := 7093169413108531 / 281474976710656, iout := 605, freq := 50,
        res1 := 10 } _).mpr (by norm_num)
  have h0 : ¬ (Numbers.toBinary64 ⟨6.5, 25.2, 605, 50, 10⟩).vout.val < 0 := by
    rw [eN]
    exact fun h => absurd ((fin_lt_zero _).mp h) (by norm_num)
  have h1 : ¬ (Numbers.toBinary64 ⟨6.5, 25.2, 605, 50, 10⟩).vout.val <
      (Numbers.toBinary64 ⟨6.5, 25.2, 605, 50, 10⟩).vin.val := by
    rw [eN]
    exact fun h => absurd ((Float64.fin_lt_fin _ _).mp h) (by norm_num)
  refine ⟨get_user_values_6_5, hv, ?_, by norm_num, hvm, h0, h1, by rw [el, er], erb, ?_, ?_⟩
  · exact calculate_name_step_up _ _ (by rw [get_user_values_6_5]; exact hv)
      (by rw [get_user_values_6_5]
          exact fun h => absurd ((fin_lt_zero _).mp h) (by norm_num))
      (by rw [get_user_values_6_5]
          exact fun h => absurd ((Float64.fin_lt_fin 25.2 6.5).mp h) (by norm_num))
  · rw [erb]
    intro h
    have := Float64.fin.inj h
    norm_num at this
  · rw [ep, ea]
    intro h
    have := Float64.fin.inj (congrArg Binary64.val h)
    norm_num at this

end MC34063
